import Mathlib

/-!
Verification of the planning-orchestration core of the `pm` repository
(`src/pm/models/planner.py`, `src/pm/core/planner/orchestrator.py`,
`src/pm/core/planner/checkpoints.py`, `src/pm/core/planner/phases.py`,
`src/pm/storage/files.py`).

The Python source is shallowly embedded: dataclasses become structures,
`to_dict`/`from_dict` become functions over a YAML-like document value type,
stateful orchestrator methods become explicit state-passing functions, and the
ambient clock (`datetime.now()`) is threaded as an explicit `DateTime`
argument.  External library behaviour (PyYAML, `re`, the LLM transport) is
modelled at its interface: phase parsers take the outcome of the regex/YAML
extraction pipeline as input, and the document store round-trips values
losslessly (PyYAML quotes ambiguous scalars on emission).
-/

namespace Pm

/-- `datetime.datetime` values, abstracted to microseconds since the epoch.
`datetime.isoformat` renders a canonical ISO-8601 string and
`datetime.fromisoformat` inverts it losslessly; the serialized form is kept as
an AST node (`Value.datetimeStr`) rather than re-implementing the textual
rendering. -/
structure DateTime where
  stamp : Nat
deriving DecidableEq, Repr

/-- `pathlib.Path`, abstracted to its `str()` rendering.  `str()` of a Python
path is never the empty string: the empty path renders as `"."`. -/
def PmPath : Type := { s : String // s ≠ "" }

instance : DecidableEq PmPath :=
  fun a b => decidable_of_iff (a.val = b.val) Subtype.ext_iff.symm

instance : Repr PmPath := ⟨fun p n => reprPrec p.val n⟩

/-- A Python/YAML document value, as produced by `to_dict` and consumed by
`from_dict` (`src/pm/models/planner.py`).  Dicts keep insertion order.
`datetimeStr d` stands for the string `d.isoformat()`. -/
inductive Value where
  | nil : Value
  | bool (b : Bool) : Value
  | int (n : Int) : Value
  | str (s : String) : Value
  | datetimeStr (d : DateTime) : Value
  | list (xs : List Value) : Value
  | dict (xs : List (String × Value)) : Value

/-- Python truthiness (`if data.get("runtime")`, `or {}` ...) on document
values: `None`, `0`, `""`, `[]`, `{}` are falsy.  An ISO timestamp string is
never empty, hence truthy. -/
def Value.truthy : Value → Bool
  | .nil => false
  | .bool b => b
  | .int n => n != 0
  | .str s => s ≠ ""
  | .datetimeStr _ => true
  | .list xs => !xs.isEmpty
  | .dict xs => !xs.isEmpty

/-- `data[key]` / `data.get(key)`: first binding of `key` in a dict. -/
def dictGet : List (String × Value) → String → Option Value
  | [], _ => none
  | (k, v) :: rest, key => if k = key then some v else dictGet rest key

/-- `key in data`. -/
def dictContains (d : List (String × Value)) (key : String) : Bool :=
  (dictGet d key).isSome

/-- `data.get(key, default)` for string-valued fields; a present non-string
value is a shape the typed model cannot hold and is reported as failure. -/
def getStrD (d : List (String × Value)) (key : String) (dflt : String) : Option String :=
  match dictGet d key with
  | none => some dflt
  | some (.str s) => some s
  | some _ => none

/-- `data[key]` for a required string field (`KeyError` on a missing key is
modelled as failure). -/
def getStr (d : List (String × Value)) (key : String) : Option String :=
  match dictGet d key with
  | some (.str s) => some s
  | _ => none

/-- `data[key]` for a required int field. -/
def getInt (d : List (String × Value)) (key : String) : Option Int :=
  match dictGet d key with
  | some (.int n) => some n
  | _ => none

/-- Elementwise parsing of a list, failing on the first failing element (a
list comprehension whose element expression may raise). -/
def mapMOption (f : α → Option β) : List α → Option (List β)
  | [] => some []
  | a :: rest => do
    let b ← f a
    let bs ← mapMOption f rest
    pure (b :: bs)

/-- `data.get(key, [])` parsed as a list of strings. -/
def getStrListD (d : List (String × Value)) (key : String) : Option (List String) :=
  match dictGet d key with
  | none => some []
  | some (.list xs) => mapMOption (fun v => match v with | .str s => some s | _ => none) xs
  | some _ => none

/-- `data.get(key, [])` parsed elementwise by `f`. -/
def getListD (d : List (String × Value)) (key : String) (f : Value → Option α) :
    Option (List α) :=
  match dictGet d key with
  | none => some []
  | some (.list xs) => mapMOption f xs
  | some _ => none

end Pm

namespace Pm

/-- `PlanningPhase` (`src/pm/models/planner.py`). -/
inductive PlanningPhase where
  | not_started | architect | layer_planning | group_planning | completed
deriving DecidableEq, Repr

def PlanningPhase.value : PlanningPhase → String
  | .not_started => "not_started"
  | .architect => "architect"
  | .layer_planning => "layer_planning"
  | .group_planning => "group_planning"
  | .completed => "completed"

/-- `PlanningPhase(s)`: the enum constructor, raising on unknown values. -/
def PlanningPhase.fromStr : String → Option PlanningPhase
  | "not_started" => some .not_started
  | "architect" => some .architect
  | "layer_planning" => some .layer_planning
  | "group_planning" => some .group_planning
  | "completed" => some .completed
  | _ => none

/-- `CheckpointStatus` (`src/pm/models/planner.py`). -/
inductive CheckpointStatus where
  | pending | approved | rejected
deriving DecidableEq, Repr

def CheckpointStatus.value : CheckpointStatus → String
  | .pending => "pending"
  | .approved => "approved"
  | .rejected => "rejected"

def CheckpointStatus.fromStr : String → Option CheckpointStatus
  | "pending" => some .pending
  | "approved" => some .approved
  | "rejected" => some .rejected
  | _ => none

/-- `ProjectType` (`src/pm/models/planner.py`). -/
inductive ProjectType where
  | greenfield | brownfield
deriving DecidableEq, Repr

def ProjectType.value : ProjectType → String
  | .greenfield => "greenfield"
  | .brownfield => "brownfield"

def ProjectType.fromStr : String → Option ProjectType
  | "greenfield" => some .greenfield
  | "brownfield" => some .brownfield
  | _ => none

/-- `F.from_dict(data[k]) if data.get(k) else None` — the pervasive
truthiness-guarded optional-subobject idiom of `from_dict`. -/
def optTruthy (d : List (String × Value)) (key : String) (f : Value → Option α) :
    Option (Option α) :=
  match dictGet d key with
  | none => some none
  | some v => if v.truthy then (f v).map some else some none

/-- `data.get(key, {})` followed by `.items()`. -/
def getDictD (d : List (String × Value)) (key : String) :
    Option (List (String × Value)) :=
  match dictGet d key with
  | none => some []
  | some (.dict xs) => some xs
  | some _ => none

/-- `data.get(key, 0)` for an int field. -/
def getIntD (d : List (String × Value)) (key : String) (dflt : Int) : Option Int :=
  match dictGet d key with
  | none => some dflt
  | some (.int n) => some n
  | some _ => none

/-- `datetime.fromisoformat(data[key])`, required key. -/
def getDateTime (d : List (String × Value)) (key : String) : Option DateTime :=
  match dictGet d key with
  | some (.datetimeStr dt) => some dt
  | _ => none

/-- `datetime.fromisoformat(data[key]) if data.get(key) else None`. -/
def getDateTimeOpt (d : List (String × Value)) (key : String) : Option (Option DateTime) :=
  match dictGet d key with
  | none => some none
  | some (.datetimeStr dt) => some (some dt)
  | some v => if v.truthy then none else some none

/-- `Path(data[key]) if data.get(key) else None`. -/
def getPathOpt (d : List (String × Value)) (key : String) : Option (Option PmPath) :=
  match dictGet d key with
  | none => some none
  | some (.str s) => if h : s = "" then some none else some (some ⟨s, h⟩)
  | some v => if v.truthy then none else some none

/-- `data.get(key)` for an optional string field. -/
def getOptStr (d : List (String × Value)) (key : String) : Option (Option String) :=
  match dictGet d key with
  | none => some none
  | some .nil => some none
  | some (.str s) => some (some s)
  | some _ => none

-- --- Tech stack models (`src/pm/models/planner.py`) ---

structure Dependency where
  name : String
  version : String
  purpose : String
deriving DecidableEq, Repr

def Dependency.to_dict (x : Dependency) : Value :=
  .dict [("name", .str x.name), ("version", .str x.version), ("purpose", .str x.purpose)]

def Dependency.from_dict : Value → Option Dependency
  | .dict d => do
    let name ← getStr d "name"
    let version ← getStr d "version"
    let purpose ← getStrD d "purpose" ""
    pure { name, version, purpose }
  | _ => none

structure FrameworkConfig where
  name : String
  version : String
  docs_url : String
deriving DecidableEq, Repr

def FrameworkConfig.to_dict (x : FrameworkConfig) : Value :=
  .dict [("name", .str x.name), ("version", .str x.version), ("docs_url", .str x.docs_url)]

def FrameworkConfig.from_dict : Value → Option FrameworkConfig
  | .dict d => do
    let name ← getStr d "name"
    let version ← getStr d "version"
    let docs_url ← getStrD d "docs_url" ""
    pure { name, version, docs_url }
  | _ => none

structure RuntimeConfig where
  language : String
  version : String
  runtime : String
  runtime_version : String
deriving DecidableEq, Repr

def RuntimeConfig.to_dict (x : RuntimeConfig) : Value :=
  .dict [("language", .str x.language), ("version", .str x.version),
    ("runtime", .str x.runtime), ("runtime_version", .str x.runtime_version)]

def RuntimeConfig.from_dict : Value → Option RuntimeConfig
  | .dict d => do
    let language ← getStr d "language"
    let version ← getStr d "version"
    let runtime ← getStrD d "runtime" ""
    let runtime_version ← getStrD d "runtime_version" ""
    pure { language, version, runtime, runtime_version }
  | _ => none

structure DatabaseConfig where
  type : String
  version : String
  orm : String
  orm_version : String
deriving DecidableEq, Repr

def DatabaseConfig.to_dict (x : DatabaseConfig) : Value :=
  .dict [("type", .str x.type), ("version", .str x.version),
    ("orm", .str x.orm), ("orm_version", .str x.orm_version)]

def DatabaseConfig.from_dict : Value → Option DatabaseConfig
  | .dict d => do
    let type ← getStr d "type"
    let version ← getStr d "version"
    let orm ← getStrD d "orm" ""
    let orm_version ← getStrD d "orm_version" ""
    pure { type, version, orm, orm_version }
  | _ => none

structure TestingConfig where
  unit : String
  e2e : String
  integration : String
deriving DecidableEq, Repr

def TestingConfig.to_dict (x : TestingConfig) : Value :=
  .dict [("unit", .str x.unit), ("e2e", .str x.e2e), ("integration", .str x.integration)]

def TestingConfig.from_dict : Value → Option TestingConfig
  | .dict d => do
    let unit ← getStrD d "unit" ""
    let e2e ← getStrD d "e2e" ""
    let integration ← getStrD d "integration" ""
    pure { unit, e2e, integration }
  | _ => none

structure TechStack where
  version : String
  created : DateTime
  project_type : String
  runtime : Option RuntimeConfig
  frameworks : List (String × FrameworkConfig)
  database : Option DatabaseConfig
  testing : Option TestingConfig
  dependencies : List Dependency
  security_notes : List String
deriving DecidableEq, Repr

def TechStack.to_dict (x : TechStack) : Value :=
  .dict [("version", .str x.version),
    ("created", .datetimeStr x.created),
    ("project_type", .str x.project_type),
    ("runtime", match x.runtime with | some r => r.to_dict | none => .nil),
    ("frameworks", .dict (x.frameworks.map (fun kv => (kv.1, kv.2.to_dict)))),
    ("database", match x.database with | some r => r.to_dict | none => .nil),
    ("testing", match x.testing with | some r => r.to_dict | none => .nil),
    ("dependencies", .list (x.dependencies.map Dependency.to_dict)),
    ("security_notes", .list (x.security_notes.map Value.str))]

/-- `TechStack.from_dict`; `now` stands for the `datetime.now()` default used
when the `created` key is absent. -/
def TechStack.from_dict (now : DateTime) : Value → Option TechStack
  | .dict d => do
    let version ← getStrD d "version" "1.0"
    let created ← if dictContains d "created" then getDateTime d "created" else some now
    let project_type ← getStrD d "project_type" "web_application"
    let runtime ← optTruthy d "runtime" RuntimeConfig.from_dict
    let fws ← getDictD d "frameworks"
    let frameworks ← mapMOption (fun kv => (FrameworkConfig.from_dict kv.2).map ((kv.1, ·))) fws
    let database ← optTruthy d "database" DatabaseConfig.from_dict
    let testing ← optTruthy d "testing" TestingConfig.from_dict
    let dependencies ← getListD d "dependencies" Dependency.from_dict
    let security_notes ← getStrListD d "security_notes"
    pure { version, created, project_type, runtime, frameworks, database, testing,
           dependencies, security_notes }
  | _ => none

-- --- Layer models ---

structure Layer where
  id : String
  name : String
  order : Int
  description : String
  responsibilities : List String
  outputs : List String
  depends_on : List String
deriving DecidableEq, Repr

def Layer.to_dict (x : Layer) : Value :=
  .dict [("id", .str x.id), ("name", .str x.name), ("order", .int x.order),
    ("description", .str x.description),
    ("responsibilities", .list (x.responsibilities.map Value.str)),
    ("outputs", .list (x.outputs.map Value.str)),
    ("depends_on", .list (x.depends_on.map Value.str))]

def Layer.from_dict : Value → Option Layer
  | .dict d => do
    let id ← getStr d "id"
    let name ← getStr d "name"
    let order ← getInt d "order"
    let description ← getStrD d "description" ""
    let responsibilities ← getStrListD d "responsibilities"
    let outputs ← getStrListD d "outputs"
    let depends_on ← getStrListD d "depends_on"
    pure { id, name, order, description, responsibilities, outputs, depends_on }
  | _ => none

structure LayerDefinition where
  version : String
  created : DateTime
  architect_summary : String
  layers : List Layer
deriving DecidableEq, Repr

def LayerDefinition.to_dict (x : LayerDefinition) : Value :=
  .dict [("version", .str x.version),
    ("created", .datetimeStr x.created),
    ("architect_summary", .str x.architect_summary),
    ("layers", .list (x.layers.map Layer.to_dict))]

def LayerDefinition.from_dict (now : DateTime) : Value → Option LayerDefinition
  | .dict d => do
    let version ← getStrD d "version" "1.0"
    let created ← if dictContains d "created" then getDateTime d "created" else some now
    let architect_summary ← getStrD d "architect_summary" ""
    let layers ← getListD d "layers" Layer.from_dict
    pure { version, created, architect_summary, layers }
  | _ => none

-- --- Group models ---

structure ContractExport where
  name : String
  type : String
  file : String
deriving DecidableEq, Repr

def ContractExport.to_dict (x : ContractExport) : Value :=
  .dict [("name", .str x.name), ("type", .str x.type), ("file", .str x.file)]

def ContractExport.from_dict : Value → Option ContractExport
  | .dict d => do
    let name ← getStr d "name"
    let type ← getStr d "type"
    let file ← getStr d "file"
    pure { name, type, file }
  | _ => none

structure ContractInterface where
  name : String
  methods : List String
deriving DecidableEq, Repr

def ContractInterface.to_dict (x : ContractInterface) : Value :=
  .dict [("name", .str x.name), ("methods", .list (x.methods.map Value.str))]

def ContractInterface.from_dict : Value → Option ContractInterface
  | .dict d => do
    let name ← getStr d "name"
    let methods ← getStrListD d "methods"
    pure { name, methods }
  | _ => none

structure GroupContract where
  exports : List ContractExport
  interfaces : List ContractInterface
deriving DecidableEq, Repr

def GroupContract.to_dict (x : GroupContract) : Value :=
  .dict [("exports", .list (x.exports.map ContractExport.to_dict)),
    ("interfaces", .list (x.interfaces.map ContractInterface.to_dict))]

def GroupContract.from_dict : Value → Option GroupContract
  | .dict d => do
    let exports ← getListD d "exports" ContractExport.from_dict
    let interfaces ← getListD d "interfaces" ContractInterface.from_dict
    pure { exports, interfaces }
  | _ => none

structure Group where
  id : String
  name : String
  order : Int
  description : String
  contracts : Option GroupContract
  depends_on_groups : List String
  estimated_tasks : Int
deriving DecidableEq, Repr

def Group.to_dict (x : Group) : Value :=
  .dict [("id", .str x.id), ("name", .str x.name), ("order", .int x.order),
    ("description", .str x.description),
    ("contracts", match x.contracts with | some c => c.to_dict | none => .nil),
    ("depends_on_groups", .list (x.depends_on_groups.map Value.str)),
    ("estimated_tasks", .int x.estimated_tasks)]

def Group.from_dict : Value → Option Group
  | .dict d => do
    let id ← getStr d "id"
    let name ← getStr d "name"
    let order ← getInt d "order"
    let description ← getStrD d "description" ""
    let contracts ← optTruthy d "contracts" GroupContract.from_dict
    let depends_on_groups ← getStrListD d "depends_on_groups"
    let estimated_tasks ← getIntD d "estimated_tasks" 0
    pure { id, name, order, description, contracts, depends_on_groups, estimated_tasks }
  | _ => none

structure GroupDefinition where
  version : String
  layer_id : String
  layer_name : String
  groups : List Group
  execution_order : List (List String)
deriving DecidableEq, Repr

def GroupDefinition.to_dict (x : GroupDefinition) : Value :=
  .dict [("version", .str x.version),
    ("layer_id", .str x.layer_id),
    ("layer_name", .str x.layer_name),
    ("groups", .list (x.groups.map Group.to_dict)),
    ("execution_order", .list (x.execution_order.map (fun b => .list (b.map Value.str))))]

def GroupDefinition.from_dict : Value → Option GroupDefinition
  | .dict d => do
    let version ← getStrD d "version" "1.0"
    let layer_id ← getStrD d "layer_id" ""
    let layer_name ← getStrD d "layer_name" ""
    let groups ← getListD d "groups" Group.from_dict
    let execution_order ← getListD d "execution_order"
      (fun v => match v with
        | .list xs => mapMOption (fun w => match w with | .str s => some s | _ => none) xs
        | _ => none)
    pure { version, layer_id, layer_name, groups, execution_order }
  | _ => none

-- --- Checkpoint and session models ---

structure Checkpoint where
  id : String
  phase : PlanningPhase
  description : String
  status : CheckpointStatus
  created : DateTime
  approved_at : Option DateTime
  feedback : String
  artifacts : List String
deriving DecidableEq, Repr

def Checkpoint.to_dict (x : Checkpoint) : Value :=
  .dict [("id", .str x.id), ("phase", .str x.phase.value),
    ("description", .str x.description),
    ("status", .str x.status.value),
    ("created", .datetimeStr x.created),
    ("approved_at", match x.approved_at with | some dt => .datetimeStr dt | none => .nil),
    ("feedback", .str x.feedback),
    ("artifacts", .list (x.artifacts.map Value.str))]

def Checkpoint.from_dict : Value → Option Checkpoint
  | .dict d => do
    let id ← getStr d "id"
    let phaseStr ← getStr d "phase"
    let phase ← PlanningPhase.fromStr phaseStr
    let description ← getStr d "description"
    let statusStr ← getStrD d "status" "pending"
    let status ← CheckpointStatus.fromStr statusStr
    let created ← getDateTime d "created"
    let approved_at ← getDateTimeOpt d "approved_at"
    let feedback ← getStrD d "feedback" ""
    let artifacts ← getStrListD d "artifacts"
    pure { id, phase, description, status, created, approved_at, feedback, artifacts }
  | _ => none

structure PlanningSession where
  id : String
  project_type : ProjectType
  current_phase : PlanningPhase
  target_repo : Option PmPath
  created : DateTime
  updated : DateTime
  current_layer_id : Option String
  current_group_id : Option String
  completed_layers : List String
  completed_groups : List String
  checkpoints : List Checkpoint
deriving DecidableEq, Repr

def PlanningSession.to_dict (x : PlanningSession) : Value :=
  .dict [("id", .str x.id),
    ("project_type", .str x.project_type.value),
    ("current_phase", .str x.current_phase.value),
    ("target_repo", match x.target_repo with | some p => .str p.val | none => .nil),
    ("created", .datetimeStr x.created),
    ("updated", .datetimeStr x.updated),
    ("current_layer_id", match x.current_layer_id with | some s => .str s | none => .nil),
    ("current_group_id", match x.current_group_id with | some s => .str s | none => .nil),
    ("completed_layers", .list (x.completed_layers.map Value.str)),
    ("completed_groups", .list (x.completed_groups.map Value.str)),
    ("checkpoints", .list (x.checkpoints.map Checkpoint.to_dict))]

def PlanningSession.from_dict : Value → Option PlanningSession
  | .dict d => do
    let id ← getStr d "id"
    let ptStr ← getStrD d "project_type" "greenfield"
    let project_type ← ProjectType.fromStr ptStr
    let phaseStr ← getStrD d "current_phase" "not_started"
    let current_phase ← PlanningPhase.fromStr phaseStr
    let target_repo ← getPathOpt d "target_repo"
    let created ← getDateTime d "created"
    let updated ← getDateTime d "updated"
    let current_layer_id ← getOptStr d "current_layer_id"
    let current_group_id ← getOptStr d "current_group_id"
    let completed_layers ← getStrListD d "completed_layers"
    let completed_groups ← getStrListD d "completed_groups"
    let checkpoints ← getListD d "checkpoints" Checkpoint.from_dict
    pure { id, project_type, current_phase, target_repo, created, updated,
           current_layer_id, current_group_id, completed_layers, completed_groups,
           checkpoints }
  | _ => none

/-- `PlanningSession.get_pending_checkpoint`: first checkpoint whose status is
PENDING. -/
def PlanningSession.get_pending_checkpoint (s : PlanningSession) : Option Checkpoint :=
  s.checkpoints.find? (fun c => c.status == CheckpointStatus.pending)

/-- `f"cp-{n:03d}"` — zero-pad to at least three digits. -/
def pad3 (n : Nat) : String :=
  if n < 10 then "00" ++ toString n
  else if n < 100 then "0" ++ toString n
  else toString n

/-- `PlanningSession.add_checkpoint`: appends a fresh PENDING checkpoint with
sequential id `cp-NNN` and bumps `updated` (the clock is the `now` argument). -/
def PlanningSession.add_checkpoint (s : PlanningSession) (phase : PlanningPhase)
    (description : String) (artifacts : List String) (now : DateTime) :
    PlanningSession × Checkpoint :=
  let checkpoint : Checkpoint :=
    { id := "cp-" ++ pad3 (s.checkpoints.length + 1)
      phase := phase
      description := description
      status := .pending
      created := now
      approved_at := none
      feedback := ""
      artifacts := artifacts }
  ({ s with checkpoints := s.checkpoints ++ [checkpoint], updated := now }, checkpoint)

-- --- Phase outputs (`src/pm/core/planner/phases.py`) ---

/-- `ArchitectOutput`. -/
structure ArchitectOutput where
  success : Bool
  phase : PlanningPhase
  message : String
  artifacts : List String
  raw_response : String
  tech_stack : Option TechStack
  layers : Option LayerDefinition
deriving DecidableEq, Repr

/-- `LayerOutput`. -/
structure LayerOutput where
  success : Bool
  phase : PlanningPhase
  message : String
  artifacts : List String
  raw_response : String
  layer_id : String
  groups : Option GroupDefinition
deriving DecidableEq, Repr

/-- `GroupOutput`. -/
structure GroupOutput where
  success : Bool
  phase : PlanningPhase
  message : String
  artifacts : List String
  raw_response : String
  group_id : String
  task_ids : List String
deriving DecidableEq, Repr

/-- Outcome of one `re.search` + `yaml.safe_load` pipeline on the raw LLM
reply: `none` when the regex finds no block, `some (.error e)` when
`yaml.safe_load` raises with text `e`, `some (.ok v)` when it yields the
document value `v`.  The regex engine and YAML reader are external libraries
and enter the model at this interface. -/
abbrev YamlBlock := Option (Except String Value)

/-- `TechnicalArchitectPhase.parse_output`, final success decision:
success iff both the tech-stack and the layers block were parsed. -/
def archFinal (acc : ArchitectOutput) : ArchitectOutput :=
  match acc.tech_stack, acc.layers with
  | some _, some l =>
    { acc with
      success := true
      message := "Architecture defined: " ++ toString l.layers.length ++ " layers" }
  | _, _ =>
    { acc with
      message := "Could not parse architecture output. Expected tech-stack and layers YAML blocks." }

/-- `TechnicalArchitectPhase.parse_output`, layers stage (the second
`re.search` / `try` block; a parse exception returns early). `lyErr` is the
`str(e)` of an exception raised inside `LayerDefinition.from_dict`. -/
def archLayersStage (now : DateTime) (acc : ArchitectOutput) (lyBlock : YamlBlock)
    (lyErr : String) : ArchitectOutput :=
  match lyBlock with
  | none => archFinal acc
  | some (.error e) => { acc with message := "Failed to parse layers: " ++ e }
  | some (.ok v) =>
    match LayerDefinition.from_dict now v with
    | none => { acc with message := "Failed to parse layers: " ++ lyErr }
    | some l => archFinal { acc with layers := some l }

/-- `TechnicalArchitectPhase.parse_output` over the outcomes of the two
block-extraction pipelines.  `tsErr`/`lyErr` are the exception texts used when
`from_dict` itself raises on a parsed block. -/
def TechnicalArchitectPhase.parse_output (now : DateTime) (tsBlock lyBlock : YamlBlock)
    (tsErr lyErr : String) : ArchitectOutput :=
  let base : ArchitectOutput :=
    { success := false, phase := .architect, message := "", artifacts := [],
      raw_response := "", tech_stack := none, layers := none }
  match tsBlock with
  | none => archLayersStage now base lyBlock lyErr
  | some (.error e) => { base with message := "Failed to parse tech stack: " ++ e }
  | some (.ok v) =>
    match TechStack.from_dict now v with
    | none => { base with message := "Failed to parse tech stack: " ++ tsErr }
    | some t => archLayersStage now { base with tech_stack := some t } lyBlock lyErr

/-- `LayerPlannerPhase.parse_output` over the outcome of the groups-block
extraction pipeline.  On a parsed block, `output.layer_id` is
`groups_data.get("layer_id", "")`, which coincides with the `layer_id` field
computed by `GroupDefinition.from_dict` on the same dict. -/
def LayerPlannerPhase.parse_output (block : YamlBlock) (eText : String) : LayerOutput :=
  let base : LayerOutput :=
    { success := false, phase := .layer_planning, message := "", artifacts := [],
      raw_response := "", layer_id := "", groups := none }
  match block with
  | none =>
    { base with message := "Could not parse layer output. Expected groups YAML block." }
  | some (.error e) => { base with message := "Failed to parse groups: " ++ e }
  | some (.ok v) =>
    match GroupDefinition.from_dict v with
    | none => { base with message := "Failed to parse groups: " ++ eText }
    | some g =>
      { base with
        success := true
        groups := some g
        layer_id := g.layer_id
        message := "Layer breakdown: " ++ toString g.groups.length ++ " groups" }

/-- One regex match of the task-block pattern in a Group Planner reply.
`idMatch` is the result of the inner `re.search(r"id:\s*(T-\d+)", match)`;
both extraction patterns require a leading `id: T-NNN` marker, so for blocks
they produce `idMatch` is present. -/
structure TaskBlock where
  idMatch : Option String
deriving DecidableEq, Repr

/-- `GroupPlannerPhase.parse_output` over the list of extracted task blocks
(in reply order). -/
def GroupPlannerPhase.parse_output (task_matches : List TaskBlock) : GroupOutput :=
  let base : GroupOutput :=
    { success := false, phase := .group_planning, message := "", artifacts := [],
      raw_response := "", group_id := "", task_ids := [] }
  if task_matches.isEmpty then
    { base with message := "Could not parse tasks from output." }
  else
    let ids := task_matches.filterMap (·.idMatch)
    { base with
      success := true
      task_ids := ids
      message := "Created " ++ toString ids.length ++ " tasks" }

-- --- Checkpoint manager (`src/pm/core/planner/checkpoints.py`) ---

/-- Body of the loop in `CheckpointManager.approve_checkpoint`: mutate the
first checkpoint whose id matches, returning the updated list and checkpoint. -/
def approveFirst (now : DateTime) (feedback : String) (cpId : String) :
    List Checkpoint → Option (List Checkpoint × Checkpoint)
  | [] => none
  | c :: rest =>
    if c.id = cpId then
      let c2 := { c with status := .approved, approved_at := some now, feedback := feedback }
      some (c2 :: rest, c2)
    else
      (approveFirst now feedback cpId rest).map (fun p => (c :: p.1, p.2))

/-- Body of the loop in `CheckpointManager.reject_checkpoint` (status becomes
REJECTED, feedback recorded, `approved_at` untouched). -/
def rejectFirst (feedback : String) (cpId : String) :
    List Checkpoint → Option (List Checkpoint × Checkpoint)
  | [] => none
  | c :: rest =>
    if c.id = cpId then
      let c2 := { c with status := .rejected, feedback := feedback }
      some (c2 :: rest, c2)
    else
      (rejectFirst feedback cpId rest).map (fun p => (c :: p.1, p.2))

/-- `CheckpointManager.approve_checkpoint(session, checkpoint_id, feedback)`:
the first checkpoint with the given id is set to APPROVED and returned (with
the session saved, bumping `updated`); if no checkpoint carries the id, the
session is left untouched and `None` is returned. -/
def CheckpointManager.approve_checkpoint (session : PlanningSession)
    (checkpoint_id feedback : String) (now : DateTime) :
    PlanningSession × Option Checkpoint :=
  match approveFirst now feedback checkpoint_id session.checkpoints with
  | some (cps, c) => ({ session with checkpoints := cps, updated := now }, some c)
  | none => (session, none)

/-- `CheckpointManager.reject_checkpoint(session, checkpoint_id, feedback)`. -/
def CheckpointManager.reject_checkpoint (session : PlanningSession)
    (checkpoint_id feedback : String) (now : DateTime) :
    PlanningSession × Option Checkpoint :=
  match rejectFirst feedback checkpoint_id session.checkpoints with
  | some (cps, c) => ({ session with checkpoints := cps, updated := now }, some c)
  | none => (session, none)

/-- `CheckpointManager.can_proceed`. -/
def CheckpointManager.can_proceed (session : PlanningSession) : Bool :=
  session.get_pending_checkpoint.isNone

-- --- Orchestrator (`src/pm/core/planner/orchestrator.py`) ---

/-- The observable state the orchestrator acts on: the planning session
(`planning/session.yaml`, write-through) and the phase-output documents in the
store (`planning/layers.yaml`, `planning/groups/<layer_id>/groups.yaml`,
`planning/tech-stack.yaml`). -/
structure OrchState where
  session : Option PlanningSession
  layersDoc : Option LayerDefinition
  groupsDocs : List (String × GroupDefinition)
  techStackDoc : Option TechStack
deriving DecidableEq, Repr

/-- Groups-document lookup keyed by layer id (the store view behind
`ContextBuilder.load_groups`). -/
def lookupGroupsDoc (gdocs : List (String × GroupDefinition)) (layer_id : String) :
    Option GroupDefinition :=
  (gdocs.find? (fun kv => kv.1 == layer_id)).map (·.2)

/-- `ContextBuilder.load_groups(layer_id)`: the per-layer groups document, or
`None` when the file does not exist. -/
def OrchState.load_groups (st : OrchState) (layer_id : String) : Option GroupDefinition :=
  lookupGroupsDoc st.groupsDocs layer_id

/-- `write_yaml_file(planning/groups/<layer_id>/groups.yaml, ...)`:
last-writer-wins overwrite of the per-layer groups document. -/
def storeGroups : List (String × GroupDefinition) → String → GroupDefinition →
    List (String × GroupDefinition)
  | [], lid, g => [(lid, g)]
  | (k, v) :: rest, lid, g =>
    if k = lid then (lid, g) :: rest else (k, v) :: storeGroups rest lid g

/-- The action dict returned by `get_next_action` (the `message` entry is a
fixed string rendering of the constructor and its ids and is omitted). -/
inductive NextAction where
  | start
  | checkpoint (checkpoint_id : String) (phase : PlanningPhase)
  | architect
  | layer_planning (layer_id : String)
  | group_planning (layer_id : String) (group_id : String)
  | completed
deriving DecidableEq, Repr

/-- The layer loop of `PlannerOrchestrator.get_next_action`: walk the layers
in document order, skipping completed layers, answering `layer_planning` for a
layer with no groups document, `group_planning` for the first listed group not
yet completed, and lazily appending fully-grouped layers to
`completed_layers` (saving the session, which bumps `updated`). -/
def scanLayers (gdocs : List (String × GroupDefinition)) (now : DateTime) :
    List Layer → PlanningSession → Option NextAction × PlanningSession
  | [], sess => (none, sess)
  | layer :: rest, sess =>
    if layer.id ∈ sess.completed_layers then scanLayers gdocs now rest sess
    else
      match lookupGroupsDoc gdocs layer.id with
      | none => (some (.layer_planning layer.id), sess)
      | some groups =>
        match groups.groups.find? (fun g => !sess.completed_groups.contains g.id) with
        | some g => (some (.group_planning layer.id g.id), sess)
        | none =>
          let sess2 :=
            if layer.id ∈ sess.completed_layers then sess
            else { sess with
                   completed_layers := sess.completed_layers ++ [layer.id]
                   updated := now }
          scanLayers gdocs now rest sess2

/-- `PlannerOrchestrator.get_next_action`. -/
def PlannerOrchestrator.get_next_action (st : OrchState) (now : DateTime) :
    NextAction × OrchState :=
  match st.session with
  | none => (.start, st)
  | some sess =>
    match sess.get_pending_checkpoint with
    | some pending => (.checkpoint pending.id pending.phase, st)
    | none =>
      match st.layersDoc with
      | none => (.architect, st)
      | some layers =>
        match scanLayers st.groupsDocs now layers.layers sess with
        | (some a, sess2) => (a, { st with session := some sess2 })
        | (none, sess2) =>
          let sess3 := { sess2 with current_phase := .completed, updated := now }
          (.completed, { st with session := some sess3 })

/-- Artifact paths recorded by `TechnicalArchitectPhase.save_artifacts`
(paths are rendered relative to the project root here). -/
def architectArtifacts (out : ArchitectOutput) : List String :=
  (if out.tech_stack.isSome then ["planning/tech-stack.yaml"] else []) ++
  (if out.layers.isSome then ["planning/layers.yaml"] else [])

/-- `PlannerOrchestrator.run_architect_phase`, with the phase result `out`
(the parsed LLM reply) taken as an oracle input.  A missing session or a
pending checkpoint raises before any mutation, modelled as an unchanged
state.  The docs fetch touches only the advisory docs cache and is not part
of the modelled state. -/
def PlannerOrchestrator.run_architect_phase (st : OrchState) (out : ArchitectOutput)
    (now : DateTime) : OrchState :=
  match st.session with
  | none => st
  | some sess =>
    if sess.get_pending_checkpoint.isSome then st
    else
      let sess1 := { sess with current_phase := .architect, updated := now }
      let st1 := { st with session := some sess1 }
      let st2 :=
        if out.success then
          { st1 with
            techStackDoc :=
              match out.tech_stack with | some t => some t | none => st1.techStackDoc
            layersDoc :=
              match out.layers with | some l => some l | none => st1.layersDoc }
        else st1
      if out.success then
        let nLayers := match out.layers with | some l => l.layers.length | none => 0
        let desc := "Architecture defined: " ++ toString nLayers ++ " layers"
        let (sess2, _) := sess1.add_checkpoint .architect desc (architectArtifacts out) now
        { st2 with session := some sess2 }
      else st2

/-- Artifact paths recorded by `LayerPlannerPhase.save_artifacts`. -/
def layerArtifacts (out : LayerOutput) : List String :=
  match out.groups with
  | some _ => if out.layer_id ≠ "" then ["planning/groups/" ++ out.layer_id ++ "/groups.yaml"] else []
  | none => []

/-- `PlannerOrchestrator.run_layer_planning(layer_id)` with the phase result
as oracle.  Note the groups document is stored under `out.layer_id` (the id
the LLM echoed in the parsed block), while the checkpoint description uses the
requested `layer_id`. -/
def PlannerOrchestrator.run_layer_planning (st : OrchState) (layer_id : String)
    (out : LayerOutput) (now : DateTime) : OrchState :=
  match st.session with
  | none => st
  | some sess =>
    if sess.get_pending_checkpoint.isSome then st
    else
      let sess1 := { sess with
                     current_phase := .layer_planning
                     current_layer_id := some layer_id
                     updated := now }
      let st1 := { st with session := some sess1 }
      let st2 :=
        if out.success then
          match out.groups with
          | some g =>
            if out.layer_id ≠ "" then
              { st1 with groupsDocs := storeGroups st1.groupsDocs out.layer_id g }
            else st1
          | none => st1
        else st1
      if out.success then
        let nGroups := match out.groups with | some g => g.groups.length | none => 0
        let desc := "Layer " ++ layer_id ++ " breakdown: " ++ toString nGroups ++ " groups"
        let (sess2, _) := sess1.add_checkpoint .layer_planning desc (layerArtifacts out) now
        { st2 with session := some sess2 }
      else st2

/-- `PlannerOrchestrator.run_group_planning(layer_id, group_id)` with the
phase result as oracle.  `GroupPlannerPhase.save_artifacts` returns `[]`, so
the checkpoint records no artifacts; on success the group id is appended to
`completed_groups` (if not already present) right after the checkpoint is
created. -/
def PlannerOrchestrator.run_group_planning (st : OrchState) (layer_id group_id : String)
    (out : GroupOutput) (now : DateTime) : OrchState :=
  match st.session with
  | none => st
  | some sess =>
    if sess.get_pending_checkpoint.isSome then st
    else
      let sess1 := { sess with
                     current_phase := .group_planning
                     current_group_id := some group_id
                     updated := now }
      if out.success then
        let desc := "Group " ++ group_id ++ " tasks: " ++ toString out.task_ids.length
          ++ " tasks created"
        let (sess2, _) := sess1.add_checkpoint .group_planning desc [] now
        let sess3 :=
          if group_id ∈ sess2.completed_groups then sess2
          else { sess2 with
                 completed_groups := sess2.completed_groups ++ [group_id]
                 updated := now }
        { st with session := some sess3 }
      else { st with session := some sess1 }

/-- `PlannerOrchestrator._check_layer_completion`. -/
def PlannerOrchestrator.check_layer_completion (st : OrchState) (now : DateTime) :
    OrchState :=
  match st.session with
  | none => st
  | some sess =>
    match sess.current_layer_id with
    | none => st
    | some layer_id =>
      match st.load_groups layer_id with
      | none => st
      | some groups =>
        let all_complete := groups.groups.all (fun g => sess.completed_groups.contains g.id)
        if all_complete && !sess.completed_layers.contains layer_id then
          { st with session := some {
              sess with
              completed_layers := sess.completed_layers ++ [layer_id]
              current_layer_id := none
              updated := now } }
        else st

/-- `PlannerOrchestrator.approve_checkpoint(feedback)`: approve the current
pending checkpoint through the manager, then check layer completion.  The
returned info dict is a rendering of the mutated checkpoint and is omitted. -/
def PlannerOrchestrator.approve_checkpoint (st : OrchState) (feedback : String)
    (now : DateTime) : OrchState :=
  match st.session with
  | none => st
  | some sess =>
    match sess.get_pending_checkpoint with
    | none => st
    | some pending =>
      let (sess2, found) := CheckpointManager.approve_checkpoint sess pending.id feedback now
      let st1 := { st with session := some sess2 }
      match found with
      | some _ => PlannerOrchestrator.check_layer_completion st1 now
      | none => st1

/-- `PlannerOrchestrator.reject_checkpoint(feedback)`. -/
def PlannerOrchestrator.reject_checkpoint (st : OrchState) (feedback : String)
    (now : DateTime) : OrchState :=
  match st.session with
  | none => st
  | some sess =>
    match sess.get_pending_checkpoint with
    | none => st
    | some pending =>
      let (sess2, _) := CheckpointManager.reject_checkpoint sess pending.id feedback now
      { st with session := some sess2 }

/-- `PlannerOrchestrator.start_planning`: replaces the session with a fresh
one (`session_id` stands for the generated `plan-<uuid>` string). -/
def PlannerOrchestrator.start_planning (st : OrchState) (session_id : String)
    (greenfield : Bool) (target_repo : Option PmPath) (now : DateTime) : OrchState :=
  { st with session := some {
      id := session_id
      project_type := if greenfield then .greenfield else .brownfield
      current_phase := .not_started
      target_repo := target_repo
      created := now
      updated := now
      current_layer_id := none
      current_group_id := none
      completed_layers := []
      completed_groups := []
      checkpoints := [] } }

/-- One orchestrator-level operation, with its oracle inputs (LLM phase
results) and its clock reading. -/
inductive Op where
  | start (session_id : String) (greenfield : Bool) (target_repo : Option PmPath)
      (now : DateTime)
  | run_architect (out : ArchitectOutput) (now : DateTime)
  | run_layer_planning (layer_id : String) (out : LayerOutput) (now : DateTime)
  | run_group_planning (layer_id group_id : String) (out : GroupOutput) (now : DateTime)
  | approve (feedback : String) (now : DateTime)
  | reject (feedback : String) (now : DateTime)
deriving Repr

/-- Dispatch one operation. -/
def applyOp (st : OrchState) : Op → OrchState
  | .start session_id greenfield target_repo now =>
    PlannerOrchestrator.start_planning st session_id greenfield target_repo now
  | .run_architect out now => PlannerOrchestrator.run_architect_phase st out now
  | .run_layer_planning layer_id out now =>
    PlannerOrchestrator.run_layer_planning st layer_id out now
  | .run_group_planning layer_id group_id out now =>
    PlannerOrchestrator.run_group_planning st layer_id group_id out now
  | .approve feedback now => PlannerOrchestrator.approve_checkpoint st feedback now
  | .reject feedback now => PlannerOrchestrator.reject_checkpoint st feedback now

/-- Apply a sequence of operations in order. -/
def applyOps (st : OrchState) : List Op → OrchState
  | [] => st
  | op :: rest => applyOps (applyOp st op) rest

/-- The state of a project before any planning session exists. -/
def initialState : OrchState :=
  { session := none, layersDoc := none, groupsDocs := [], techStackDoc := none }

/-- Number of PENDING checkpoints in a checkpoint list. -/
def pendingCountList (cps : List Checkpoint) : Nat :=
  cps.countP (fun c => c.status == CheckpointStatus.pending)

/-- Number of PENDING checkpoints in a session. -/
def pendingCount (s : PlanningSession) : Nat :=
  pendingCountList s.checkpoints

-- --- YAML document store (`src/pm/storage/files.py`) ---

/-- `write_yaml_file(path, data)`: last-writer-wins overwrite in a directory
of YAML documents keyed by path.  PyYAML `yaml.dump` / `yaml.safe_load`
round-trips null/bool/int/str/list/dict trees losslessly (scalars that would
re-read at a different type are quoted on emission), so the document value
itself is stored. -/
def write_yaml_file : List (String × Value) → String → Value → List (String × Value)
  | [], path, data => [(path, data)]
  | (k, v) :: rest, path, data =>
    if k = path then (path, data) :: rest else (k, v) :: write_yaml_file rest path data

/-- `read_yaml_file(path)`: `yaml.safe_load(f) or {}` — a falsy document
(e.g. an empty file) reads back as the empty dict; a missing file raises,
modelled as `none`. -/
def read_yaml_file (store : List (String × Value)) (path : String) : Option Value :=
  match (store.find? (fun kv => kv.1 == path)).map (·.2) with
  | some v => some (if v.truthy then v else .dict [])
  | none => none

-- --- Declarative description of the `get_next_action` layer scan ---

/-- A layer still yields an action: it has no groups document yet, or some
listed group is not yet completed. -/
def layerActionable (gdocs : List (String × GroupDefinition))
    (completed_groups : List String) (L : Layer) : Bool :=
  match lookupGroupsDoc gdocs L.id with
  | none => true
  | some groups => groups.groups.any (fun g => !completed_groups.contains g.id)

/-- The action offered for a chosen layer: `layer_planning` when it has no
groups document, else `group_planning` for the first listed group not yet
completed (none when every group is complete). -/
def actionForLayer (gdocs : List (String × GroupDefinition))
    (completed_groups : List String) (L : Layer) : Option NextAction :=
  match lookupGroupsDoc gdocs L.id with
  | none => some (.layer_planning L.id)
  | some groups =>
    (groups.groups.find? (fun g => !completed_groups.contains g.id)).map
      (fun g => .group_planning L.id g.id)

/-- The first layer of the list, in the order given, that is not completed
and still actionable. -/
def nextLayerTarget (gdocs : List (String × GroupDefinition))
    (completed_layers completed_groups : List String) (layers : List Layer) :
    Option Layer :=
  layers.find? (fun L =>
    !completed_layers.contains L.id && layerActionable gdocs completed_groups L)

/-- Declarative description of the action computed by the layer loop of
`get_next_action`, scanning the given layer list in the order given
(document order). -/
def scanActionSpec (gdocs : List (String × GroupDefinition))
    (completed_layers completed_groups : List String) (layers : List Layer) :
    Option NextAction :=
  (nextLayerTarget gdocs completed_layers completed_groups layers).bind
    (actionForLayer gdocs completed_groups)

/-- The scan the specification describes for C2: the same decision procedure,
but over the layers sorted by ascending numeric `order`. -/
def ascendingScanSpec (gdocs : List (String × GroupDefinition))
    (completed_layers completed_groups : List String) (layers : List Layer) :
    Option NextAction :=
  scanActionSpec gdocs completed_layers completed_groups
    (layers.insertionSort (fun a b => a.order ≤ b.order))

-- --- Helpers over operations ---

/-- Is this operation a phase run whose parse result is a failure? -/
def Op.isFailedRun : Op → Bool
  | .run_architect out _ => !out.success
  | .run_layer_planning _ out _ => !out.success
  | .run_group_planning _ _ out _ => !out.success
  | _ => false

/-- The phase a run operation switches `current_phase` to. -/
def Op.runPhase : Op → Option PlanningPhase
  | .run_architect _ _ => some .architect
  | .run_layer_planning _ _ _ => some .layer_planning
  | .run_group_planning _ _ _ _ => some .group_planning
  | _ => none

/-- The `current_layer_id` pointer after a run operation, given its previous
value. -/
def Op.attemptedLayerPointer (op : Op) (old : Option String) : Option String :=
  match op with
  | .run_layer_planning lid _ _ => some lid
  | _ => old

/-- The `current_group_id` pointer after a run operation, given its previous
value. -/
def Op.attemptedGroupPointer (op : Op) (old : Option String) : Option String :=
  match op with
  | .run_group_planning _ gid _ _ => some gid
  | _ => old

/-- `completed_layers` of the current session, if any. -/
def OrchState.sessionCompletedLayers (st : OrchState) : Option (List String) :=
  st.session.map (·.completed_layers)

-- --- Concrete instances used by counterexamples and witnesses ---

/-- A parsed groups block carrying an empty `groups` list. -/
def sampleZeroGroupsDict : Value :=
  .dict [("version", .str "1.0"), ("layer_id", .str "layer-01"), ("groups", .list [])]

/-- The `GroupDefinition` the zero-groups block parses to. -/
def sampleZeroGroupsDef : GroupDefinition :=
  { version := "1.0", layer_id := "layer-01", layer_name := "", groups := [],
    execution_order := [] }

/-- A minimal parsed tech-stack block. -/
def sampleTechDict : Value :=
  .dict [("version", .str "1.0"), ("project_type", .str "web_application")]

/-- A minimal parsed layers block. -/
def sampleLayersDict : Value :=
  .dict [("version", .str "1.0"), ("architect_summary", .str "s"), ("layers", .list [])]

/-- A checkpoint that has already been approved. -/
def sampleApprovedCp : Checkpoint :=
  { id := "cp-001", phase := .architect, description := "d", status := .approved,
    created := ⟨0⟩, approved_at := some ⟨0⟩, feedback := "", artifacts := [] }

/-- A fresh session template. -/
def sampleFreshSession : PlanningSession :=
  { id := "plan-1", project_type := .greenfield, current_phase := .not_started,
    target_repo := none, created := ⟨0⟩, updated := ⟨0⟩, current_layer_id := none,
    current_group_id := none, completed_layers := [], completed_groups := [],
    checkpoints := [] }

/-- A session whose only checkpoint is already approved. -/
def sampleSessApproved : PlanningSession :=
  { sampleFreshSession with checkpoints := [sampleApprovedCp] }

/-- Layer with numeric order 1, listed second in the document. -/
def sampleLayerA : Layer :=
  { id := "layer-a", name := "A", order := 1, description := "",
    responsibilities := [], outputs := [], depends_on := [] }

/-- Layer with numeric order 2, listed first in the document. -/
def sampleLayerB : Layer :=
  { id := "layer-b", name := "B", order := 2, description := "",
    responsibilities := [], outputs := [], depends_on := [] }

/-- A layers document listing the order-2 layer before the order-1 layer. -/
def sampleLayersBA : LayerDefinition :=
  { version := "1.0", created := ⟨0⟩, architect_summary := "", layers := [sampleLayerB, sampleLayerA] }

/-- State with the out-of-order layers document and a fresh session. -/
def sampleStateBA : OrchState :=
  { session := some sampleFreshSession, layersDoc := some sampleLayersBA,
    groupsDocs := [], techStackDoc := none }

/-- A failing Layer Planner result. -/
def sampleFailLayerOut : LayerOutput :=
  { success := false, phase := .layer_planning,
    message := "Could not parse layer output. Expected groups YAML block.",
    artifacts := [], raw_response := "", layer_id := "", groups := none }

/-- A single-layer layers document. -/
def sampleLayersA : LayerDefinition :=
  { version := "1.0", created := ⟨0⟩, architect_summary := "", layers := [sampleLayerA] }

/-- A one-group groups document for `layer-a`. -/
def sampleGroupsA : GroupDefinition :=
  { version := "1.0", layer_id := "layer-a", layer_name := "A",
    groups := [{ id := "grp-a-01", name := "G", order := 1, description := "",
                 contracts := none, depends_on_groups := [], estimated_tasks := 1 }],
    execution_order := [["grp-a-01"]] }

/-- State for the group-planning scenario: one layer, one group, fresh
session. -/
def sampleStateGroups : OrchState :=
  { session := some sampleFreshSession, layersDoc := some sampleLayersA,
    groupsDocs := [("layer-a", sampleGroupsA)], techStackDoc := none }

/-- A successful Group Planner result with one task. -/
def sampleOkGroupOut : GroupOutput :=
  { success := true, phase := .group_planning, message := "Created 1 tasks",
    artifacts := [], raw_response := "", group_id := "", task_ids := ["T-001"] }

/-- The approval mutation `approveFirst` applies to a matching checkpoint. -/
def Checkpoint.approvedWith (c : Checkpoint) (now : DateTime) (fb : String) : Checkpoint :=
  { c with status := .approved, approved_at := some now, feedback := fb }

/-- The rejection mutation `rejectFirst` applies to a matching checkpoint. -/
def Checkpoint.rejectedWith (c : Checkpoint) (fb : String) : Checkpoint :=
  { c with status := .rejected, feedback := fb }

end Pm

namespace Pm

-- --- Shared helper lemmas ---

/-- If mapping `f` over `l` yields exactly `ids.map some`, then filtering the
partial results recovers `ids`. -/
theorem filterMap_of_map_some {α β : Type} {f : α → Option β} :
    ∀ {l : List α} {ids : List β}, l.map f = ids.map some → l.filterMap f = ids := by
  intro l
  induction l with
  | nil =>
    intro ids h
    cases ids with
    | nil => rfl
    | cons b bs => simp at h
  | cons a t ih =>
    intro ids h
    cases ids with
    | nil => simp at h
    | cons b bs =>
      simp only [List.map_cons, List.cons.injEq] at h
      simp [List.filterMap_cons, h.1, ih h.2]

/-- A match in `approveFirst` exists exactly when some checkpoint carries the
id; the returned checkpoint is APPROVED. -/
theorem approveFirst_spec (now : DateTime) (fb cpId : String) :
    ∀ cps : List Checkpoint,
      ((∀ cp ∈ cps, cp.id ≠ cpId) → approveFirst now fb cpId cps = none) ∧
      ((∃ cp ∈ cps, cp.id = cpId) →
        ∃ cs c, approveFirst now fb cpId cps = some (cs, c) ∧
          c.status = CheckpointStatus.approved) := by
  intro cps
  induction cps with
  | nil => simp [approveFirst]
  | cons c rest ih =>
    constructor
    · intro h
      have hc : c.id ≠ cpId := h c (by simp)
      simp only [approveFirst, if_neg hc]
      rw [ih.1 (fun cp hm => h cp (by simp [hm]))]
      rfl
    · intro h
      by_cases hc : c.id = cpId
      · have heq : approveFirst now fb cpId (c :: rest) =
            some (c.approvedWith now fb :: rest, c.approvedWith now fb) := by
          simp only [approveFirst]
          rw [if_pos hc]
          rfl
        exact ⟨_, _, heq, rfl⟩
      · obtain ⟨cp, hm, hid⟩ := h
        have hm' : cp ∈ rest := by
          rcases List.mem_cons.mp hm with h1 | h1
          · exact absurd (h1 ▸ hid) hc
          · exact h1
        obtain ⟨cs, c2, heq, hst⟩ := ih.2 ⟨cp, hm', hid⟩
        have heq2 : approveFirst now fb cpId (c :: rest) = some (c :: cs, c2) := by
          simp only [approveFirst]
          rw [if_neg hc, heq]
          rfl
        exact ⟨_, _, heq2, hst⟩

/-- Same for `rejectFirst`: the returned checkpoint is REJECTED. -/
theorem rejectFirst_spec (fb cpId : String) :
    ∀ cps : List Checkpoint,
      ((∀ cp ∈ cps, cp.id ≠ cpId) → rejectFirst fb cpId cps = none) ∧
      ((∃ cp ∈ cps, cp.id = cpId) →
        ∃ cs c, rejectFirst fb cpId cps = some (cs, c) ∧
          c.status = CheckpointStatus.rejected) := by
  intro cps
  induction cps with
  | nil => simp [rejectFirst]
  | cons c rest ih =>
    constructor
    · intro h
      have hc : c.id ≠ cpId := h c (by simp)
      simp only [rejectFirst, if_neg hc]
      rw [ih.1 (fun cp hm => h cp (by simp [hm]))]
      rfl
    · intro h
      by_cases hc : c.id = cpId
      · have heq : rejectFirst fb cpId (c :: rest) =
            some (c.rejectedWith fb :: rest, c.rejectedWith fb) := by
          simp only [rejectFirst]
          rw [if_pos hc]
          rfl
        exact ⟨_, _, heq, rfl⟩
      · obtain ⟨cp, hm, hid⟩ := h
        have hm' : cp ∈ rest := by
          rcases List.mem_cons.mp hm with h1 | h1
          · exact absurd (h1 ▸ hid) hc
          · exact h1
        obtain ⟨cs, c2, heq, hst⟩ := ih.2 ⟨cp, hm', hid⟩
        have heq2 : rejectFirst fb cpId (c :: rest) = some (c :: cs, c2) := by
          simp only [rejectFirst]
          rw [if_neg hc, heq]
          rfl
        exact ⟨_, _, heq2, hst⟩

-- --- C7 ---

/-- C7: a Group Planner reply with zero extractable task blocks parses to a
failure with an empty `task_ids`; a reply whose N extracted blocks each carry
an id parses to success with exactly those N ids, in reply order. -/
theorem c7_group_parse_counts (task_matches : List TaskBlock) (ids : List String) :
    (task_matches.isEmpty = true →
      (GroupPlannerPhase.parse_output task_matches).success = false ∧
      (GroupPlannerPhase.parse_output task_matches).task_ids = []) ∧
    (task_matches.map TaskBlock.idMatch = ids.map some → task_matches ≠ [] →
      (GroupPlannerPhase.parse_output task_matches).success = true ∧
      (GroupPlannerPhase.parse_output task_matches).task_ids = ids ∧
      (GroupPlannerPhase.parse_output task_matches).task_ids.length =
        task_matches.length) := by
  constructor
  · intro h
    have : task_matches = [] := List.isEmpty_iff.mp h
    subst this
    exact ⟨rfl, rfl⟩
  · intro hmap hne
    have hids : task_matches.filterMap TaskBlock.idMatch = ids :=
      filterMap_of_map_some hmap
    have hlen : ids.length = task_matches.length := by
      have := congrArg List.length hmap
      simpa using this.symm
    have hie : task_matches.isEmpty = false := by
      cases task_matches with
      | nil => exact absurd rfl hne
      | cons a t => rfl
    refine ⟨?_, ?_, ?_⟩ <;>
      simp [GroupPlannerPhase.parse_output, hie, hids, hlen]

/-- Witness for C7 at concrete inputs: the empty reply fails, and a two-block
reply yields exactly its two ids in order. -/
theorem c7_group_parse_counts_witness :
    ((GroupPlannerPhase.parse_output []).success = false ∧
      (GroupPlannerPhase.parse_output []).task_ids = []) ∧
    ((GroupPlannerPhase.parse_output [⟨some "T-001"⟩, ⟨some "T-002"⟩]).success = true ∧
      (GroupPlannerPhase.parse_output [⟨some "T-001"⟩, ⟨some "T-002"⟩]).task_ids =
        ["T-001", "T-002"] ∧
      (GroupPlannerPhase.parse_output [⟨some "T-001"⟩, ⟨some "T-002"⟩]).task_ids.length = 2) :=
  ⟨(c7_group_parse_counts [] []).1 rfl,
   (c7_group_parse_counts [⟨some "T-001"⟩, ⟨some "T-002"⟩] ["T-001", "T-002"]).2 rfl
     (by decide)⟩

-- --- C3 ---

/-- C3 counterexample: a groups block that parses but contains zero groups
still yields `success = true` — the code does not treat zero groups as a
parse failure. -/
theorem c3_counterexample :
    (LayerPlannerPhase.parse_output (some (.ok sampleZeroGroupsDict)) "err").success = true ∧
    (LayerPlannerPhase.parse_output (some (.ok sampleZeroGroupsDict)) "err").groups =
      some sampleZeroGroupsDef ∧
    sampleZeroGroupsDef.groups = [] := by
  refine ⟨rfl, ?_, rfl⟩
  rfl

/-- C3 amended: whenever the groups block is located and parses (including to
an empty groups list), `parse_output` reports success and carries the parsed
definition and its `layer_id`. -/
theorem c3_zero_groups_amended (block : YamlBlock) (eText : String) (v : Value)
    (g : GroupDefinition) (hb : block = some (.ok v))
    (hg : GroupDefinition.from_dict v = some g) :
    (LayerPlannerPhase.parse_output block eText).success = true ∧
    (LayerPlannerPhase.parse_output block eText).groups = some g ∧
    (LayerPlannerPhase.parse_output block eText).layer_id = g.layer_id := by
  subst hb
  simp [LayerPlannerPhase.parse_output, hg]

/-- Witness for the amended C3 at the zero-groups block. -/
theorem c3_zero_groups_amended_witness :
    (LayerPlannerPhase.parse_output (some (.ok sampleZeroGroupsDict)) "e").success = true ∧
    (LayerPlannerPhase.parse_output (some (.ok sampleZeroGroupsDict)) "e").groups =
      some sampleZeroGroupsDef ∧
    (LayerPlannerPhase.parse_output (some (.ok sampleZeroGroupsDict)) "e").layer_id =
      sampleZeroGroupsDef.layer_id :=
  c3_zero_groups_amended _ _ sampleZeroGroupsDict sampleZeroGroupsDef rfl (by rfl)

end Pm

namespace Pm

-- --- C5 ---

/-- C5 counterexample: the only checkpoint of the session is APPROVED (not
PENDING), yet `reject_checkpoint` by its id transitions it to REJECTED and
returns it instead of the "not found" signal. -/
theorem c5_counterexample :
    sampleSessApproved.checkpoints.map Checkpoint.status = [CheckpointStatus.approved] ∧
    ((CheckpointManager.reject_checkpoint sampleSessApproved "cp-001" "fb" ⟨2⟩).2).isSome
      = true ∧
    ((CheckpointManager.reject_checkpoint sampleSessApproved "cp-001" "fb" ⟨2⟩).1.checkpoints.map
      Checkpoint.status) = [CheckpointStatus.rejected] := by
  refine ⟨rfl, rfl, rfl⟩

/-- C5 amended: `approve_checkpoint` / `reject_checkpoint` transition the
first checkpoint carrying the named id regardless of its current status, and
return the "not found" signal (leaving the session untouched) exactly when no
checkpoint carries the id. -/
theorem c5_transition_by_id (sess : PlanningSession) (cpId fb : String) (now : DateTime) :
    ((∀ cp ∈ sess.checkpoints, cp.id ≠ cpId) →
      CheckpointManager.approve_checkpoint sess cpId fb now = (sess, none) ∧
      CheckpointManager.reject_checkpoint sess cpId fb now = (sess, none)) ∧
    ((∃ cp ∈ sess.checkpoints, cp.id = cpId) →
      (∃ c, (CheckpointManager.approve_checkpoint sess cpId fb now).2 = some c ∧
        c.status = CheckpointStatus.approved) ∧
      (∃ c, (CheckpointManager.reject_checkpoint sess cpId fb now).2 = some c ∧
        c.status = CheckpointStatus.rejected)) := by
  constructor
  · intro h
    constructor
    · have := (approveFirst_spec now fb cpId sess.checkpoints).1 h
      simp [CheckpointManager.approve_checkpoint, this]
    · have := (rejectFirst_spec fb cpId sess.checkpoints).1 h
      simp [CheckpointManager.reject_checkpoint, this]
  · intro h
    constructor
    · obtain ⟨cs, c, heq, hst⟩ := (approveFirst_spec now fb cpId sess.checkpoints).2 h
      exact ⟨c, by simp [CheckpointManager.approve_checkpoint, heq], hst⟩
    · obtain ⟨cs, c, heq, hst⟩ := (rejectFirst_spec fb cpId sess.checkpoints).2 h
      exact ⟨c, by simp [CheckpointManager.reject_checkpoint, heq], hst⟩

/-- Witness for the amended C5: the no-match case on a fresh session and the
match case on the approved-checkpoint session. -/
theorem c5_transition_by_id_witness :
    (CheckpointManager.approve_checkpoint sampleFreshSession "cp-001" "" ⟨3⟩ =
      (sampleFreshSession, none) ∧
     CheckpointManager.reject_checkpoint sampleFreshSession "cp-001" "" ⟨3⟩ =
      (sampleFreshSession, none)) ∧
    ((∃ c, (CheckpointManager.approve_checkpoint sampleSessApproved "cp-001" "" ⟨3⟩).2 =
        some c ∧ c.status = CheckpointStatus.approved) ∧
     (∃ c, (CheckpointManager.reject_checkpoint sampleSessApproved "cp-001" "" ⟨3⟩).2 =
        some c ∧ c.status = CheckpointStatus.rejected)) :=
  ⟨(c5_transition_by_id sampleFreshSession "cp-001" "" ⟨3⟩).1 (by simp [sampleFreshSession]),
   (c5_transition_by_id sampleSessApproved "cp-001" "" ⟨3⟩).2
     ⟨sampleApprovedCp, by simp [sampleSessApproved], rfl⟩⟩

-- --- C6 ---

/-- C6 counterexample: with only the tech-stack block parsed, and dually with
only the layers block parsed, the failure message is the same generic
both-blocks sentence — it does not name the specific missing piece. -/
theorem c6_counterexample :
    (TechnicalArchitectPhase.parse_output ⟨5⟩ (some (.ok sampleTechDict)) none "e1" "e2").success
      = false ∧
    (TechnicalArchitectPhase.parse_output ⟨5⟩ (some (.ok sampleTechDict)) none "e1" "e2").tech_stack.isSome
      = true ∧
    (TechnicalArchitectPhase.parse_output ⟨5⟩ none (some (.ok sampleLayersDict)) "e1" "e2").success
      = false ∧
    (TechnicalArchitectPhase.parse_output ⟨5⟩ none (some (.ok sampleLayersDict)) "e1" "e2").layers.isSome
      = true ∧
    (TechnicalArchitectPhase.parse_output ⟨5⟩ (some (.ok sampleTechDict)) none "e1" "e2").message
      = "Could not parse architecture output. Expected tech-stack and layers YAML blocks." ∧
    (TechnicalArchitectPhase.parse_output ⟨5⟩ none (some (.ok sampleLayersDict)) "e1" "e2").message
      = (TechnicalArchitectPhase.parse_output ⟨5⟩ (some (.ok sampleTechDict)) none "e1" "e2").message := by
  refine ⟨rfl, rfl, rfl, rfl, rfl, rfl⟩

/-- C6 amended: `parse_output` succeeds exactly when both the tech-stack and
the layers pipeline locate and parse their block; when exactly one side
parses and the other block is missing, the failure message is the fixed
generic sentence naming both expected blocks. -/
theorem c6_both_blocks (now : DateTime) (tsBlock lyBlock : YamlBlock) (tsErr lyErr : String) :
    ((TechnicalArchitectPhase.parse_output now tsBlock lyBlock tsErr lyErr).success = true ↔
      (∃ v t, tsBlock = some (.ok v) ∧ TechStack.from_dict now v = some t) ∧
      (∃ w l, lyBlock = some (.ok w) ∧ LayerDefinition.from_dict now w = some l)) ∧
    ((∃ v t, tsBlock = some (.ok v) ∧ TechStack.from_dict now v = some t) → lyBlock = none →
      (TechnicalArchitectPhase.parse_output now tsBlock lyBlock tsErr lyErr).message =
        "Could not parse architecture output. Expected tech-stack and layers YAML blocks.") ∧
    (tsBlock = none → (∃ w l, lyBlock = some (.ok w) ∧ LayerDefinition.from_dict now w = some l) →
      (TechnicalArchitectPhase.parse_output now tsBlock lyBlock tsErr lyErr).message =
        "Could not parse architecture output. Expected tech-stack and layers YAML blocks.") := by
  refine ⟨?_, ?_, ?_⟩
  · constructor
    · intro hs
      match hts : tsBlock with
      | none =>
        exfalso
        simp only [TechnicalArchitectPhase.parse_output] at hs
        match hly : lyBlock with
        | none => simp [archLayersStage, archFinal] at hs
        | some (.error e) => simp [archLayersStage] at hs
        | some (.ok w) =>
          simp only [archLayersStage] at hs
          cases hld : LayerDefinition.from_dict now w with
          | none => rw [hld] at hs; simp at hs
          | some l => rw [hld] at hs; simp [archFinal] at hs
      | some (.error e) =>
        exfalso
        simp [TechnicalArchitectPhase.parse_output] at hs
      | some (.ok v) =>
        simp only [TechnicalArchitectPhase.parse_output] at hs
        cases htd : TechStack.from_dict now v with
        | none => exfalso; rw [htd] at hs; simp at hs
        | some t =>
          rw [htd] at hs
          refine ⟨⟨v, t, rfl, htd⟩, ?_⟩
          match hly : lyBlock with
          | none => exfalso; simp [archLayersStage, archFinal] at hs
          | some (.error e) => exfalso; simp [archLayersStage] at hs
          | some (.ok w) =>
            simp only [archLayersStage] at hs
            cases hld : LayerDefinition.from_dict now w with
            | none => exfalso; rw [hld] at hs; simp at hs
            | some l => exact ⟨w, l, rfl, hld⟩
    · rintro ⟨⟨v, t, rfl, htd⟩, ⟨w, l, rfl, hld⟩⟩
      simp [TechnicalArchitectPhase.parse_output, htd, archLayersStage, hld, archFinal]
  · rintro ⟨v, t, rfl, htd⟩ rfl
    simp [TechnicalArchitectPhase.parse_output, htd, archLayersStage, archFinal]
  · rintro rfl ⟨w, l, rfl, hld⟩
    simp [TechnicalArchitectPhase.parse_output, archLayersStage, hld, archFinal]

/-- Witness for the amended C6: both blocks parse at the concrete minimal
documents, and the one-block cases produce the generic message. -/
theorem c6_both_blocks_witness :
    ((TechnicalArchitectPhase.parse_output ⟨5⟩ (some (.ok sampleTechDict))
        (some (.ok sampleLayersDict)) "e1" "e2").success = true) ∧
    ((TechnicalArchitectPhase.parse_output ⟨5⟩ (some (.ok sampleTechDict)) none "e1" "e2").message =
      "Could not parse architecture output. Expected tech-stack and layers YAML blocks.") ∧
    ((TechnicalArchitectPhase.parse_output ⟨5⟩ none (some (.ok sampleLayersDict)) "e1" "e2").message =
      "Could not parse architecture output. Expected tech-stack and layers YAML blocks.") :=
  have hts : ∃ v t, (some (.ok sampleTechDict) : YamlBlock) = some (.ok v) ∧
      TechStack.from_dict ⟨5⟩ v = some t := ⟨sampleTechDict, _, rfl, rfl⟩
  have hly : ∃ w l, (some (.ok sampleLayersDict) : YamlBlock) = some (.ok w) ∧
      LayerDefinition.from_dict ⟨5⟩ w = some l := ⟨sampleLayersDict, _, rfl, rfl⟩
  ⟨((c6_both_blocks ⟨5⟩ (some (.ok sampleTechDict)) (some (.ok sampleLayersDict)) "e1" "e2").1).mpr
      ⟨hts, hly⟩,
   (c6_both_blocks ⟨5⟩ (some (.ok sampleTechDict)) none "e1" "e2").2.1 hts rfl,
   (c6_both_blocks ⟨5⟩ none (some (.ok sampleLayersDict)) "e1" "e2").2.2 rfl hly⟩

end Pm

namespace Pm

-- --- Round-trip lemmas (C9) ---

/-- Parsing a mapped list succeeds elementwise when each element round-trips. -/
theorem mapMOption_map {α β : Type} (f : β → Option α) (g : α → β)
    (h : ∀ a, f (g a) = some a) (l : List α) : mapMOption f (l.map g) = some l := by
  induction l with
  | nil => rfl
  | cons a t ih => simp [mapMOption, h, ih]

theorem strList_round (l : List String) :
    mapMOption (fun v => match v with | .str s => some s | _ => none)
      (l.map Value.str) = some l :=
  mapMOption_map (fun v => match v with | .str s => some s | _ => none)
    Value.str (fun _ => rfl) l

theorem value_nil_truthy : Value.nil.truthy = false := rfl

theorem planningPhase_fromStr_value (p : PlanningPhase) :
    PlanningPhase.fromStr p.value = some p := by cases p <;> rfl

theorem checkpointStatus_fromStr_value (s : CheckpointStatus) :
    CheckpointStatus.fromStr s.value = some s := by cases s <;> rfl

theorem projectType_fromStr_value (t : ProjectType) :
    ProjectType.fromStr t.value = some t := by cases t <;> rfl

theorem dependency_round_trip (x : Dependency) :
    Dependency.from_dict (Dependency.to_dict x) = some x := by
  simp [Dependency.to_dict, Dependency.from_dict, getStr, getStrD, dictGet]

theorem runtimeConfig_round_trip (x : RuntimeConfig) :
    RuntimeConfig.from_dict (RuntimeConfig.to_dict x) = some x := by
  simp [RuntimeConfig.to_dict, RuntimeConfig.from_dict, getStr, getStrD, dictGet]

theorem databaseConfig_round_trip (x : DatabaseConfig) :
    DatabaseConfig.from_dict (DatabaseConfig.to_dict x) = some x := by
  simp [DatabaseConfig.to_dict, DatabaseConfig.from_dict, getStr, getStrD, dictGet]

theorem testingConfig_round_trip (x : TestingConfig) :
    TestingConfig.from_dict (TestingConfig.to_dict x) = some x := by
  simp [TestingConfig.to_dict, TestingConfig.from_dict, getStr, getStrD, dictGet]

theorem frameworkConfig_round_trip (x : FrameworkConfig) :
    FrameworkConfig.from_dict (FrameworkConfig.to_dict x) = some x := by
  simp [FrameworkConfig.to_dict, FrameworkConfig.from_dict, getStr, getStrD, dictGet]

theorem runtimeConfig_to_dict_truthy (x : RuntimeConfig) : (x.to_dict).truthy = true := rfl

theorem databaseConfig_to_dict_truthy (x : DatabaseConfig) : (x.to_dict).truthy = true := rfl

theorem testingConfig_to_dict_truthy (x : TestingConfig) : (x.to_dict).truthy = true := rfl

theorem techStack_round_trip (now : DateTime) (x : TechStack) :
    TechStack.from_dict now (TechStack.to_dict x) = some x := by
  cases x with
  | mk version created project_type runtime frameworks database testing deps notes =>
    cases runtime <;> cases database <;> cases testing <;>
    simp [TechStack.to_dict, TechStack.from_dict, getStr, getStrD, dictGet, dictContains,
      getDateTime, optTruthy, getDictD, getListD, getStrListD,
      runtimeConfig_round_trip, databaseConfig_round_trip, testingConfig_round_trip, dependency_round_trip,
      mapMOption_map, frameworkConfig_round_trip, runtimeConfig_to_dict_truthy,
      databaseConfig_to_dict_truthy, testingConfig_to_dict_truthy, value_nil_truthy]

theorem layer_round_trip (x : Layer) : Layer.from_dict (Layer.to_dict x) = some x := by
  simp [Layer.to_dict, Layer.from_dict, getStr, getInt, getStrD, getStrListD, dictGet,
    strList_round]

theorem layerDefinition_round_trip (now : DateTime) (x : LayerDefinition) :
    LayerDefinition.from_dict now (LayerDefinition.to_dict x) = some x := by
  simp [LayerDefinition.to_dict, LayerDefinition.from_dict, getStr, getStrD, dictGet,
    dictContains, getDateTime, getListD, layer_round_trip, mapMOption_map]

theorem contractExport_round_trip (x : ContractExport) :
    ContractExport.from_dict (ContractExport.to_dict x) = some x := by
  simp [ContractExport.to_dict, ContractExport.from_dict, getStr, dictGet]

theorem contractInterface_round_trip (x : ContractInterface) :
    ContractInterface.from_dict (ContractInterface.to_dict x) = some x := by
  simp [ContractInterface.to_dict, ContractInterface.from_dict, getStr, getStrListD,
    dictGet, strList_round]

theorem groupContract_round_trip (x : GroupContract) :
    GroupContract.from_dict (GroupContract.to_dict x) = some x := by
  simp [GroupContract.to_dict, GroupContract.from_dict, getListD, dictGet,
    contractExport_round_trip, contractInterface_round_trip, mapMOption_map]

theorem groupContract_to_dict_truthy (x : GroupContract) : (x.to_dict).truthy = true := rfl

theorem group_round_trip (x : Group) : Group.from_dict (Group.to_dict x) = some x := by
  cases x with
  | mk id name order description contracts depends_on_groups estimated_tasks =>
    cases contracts <;>
    simp [Group.to_dict, Group.from_dict, getStr, getInt, getIntD, getStrD, getStrListD,
      dictGet, optTruthy, groupContract_round_trip, groupContract_to_dict_truthy,
      value_nil_truthy, strList_round]

theorem groupDefinition_round_trip (x : GroupDefinition) :
    GroupDefinition.from_dict (GroupDefinition.to_dict x) = some x := by
  simp [GroupDefinition.to_dict, GroupDefinition.from_dict, getStrD, dictGet, getListD,
    group_round_trip, mapMOption_map, strList_round]

theorem checkpoint_round_trip (x : Checkpoint) :
    Checkpoint.from_dict (Checkpoint.to_dict x) = some x := by
  cases x with
  | mk id phase description status created approved_at feedback artifacts =>
    cases approved_at <;>
    simp [Checkpoint.to_dict, Checkpoint.from_dict, getStr, getStrD, getStrListD, dictGet,
      getDateTime, getDateTimeOpt, planningPhase_fromStr_value,
      checkpointStatus_fromStr_value, value_nil_truthy, strList_round]

theorem PmPath.val_ne_empty (p : PmPath) : (p.val = "") = False := eq_false p.2

theorem planningSession_round_trip (x : PlanningSession) :
    PlanningSession.from_dict (PlanningSession.to_dict x) = some x := by
  cases x with
  | mk id project_type current_phase target_repo created updated current_layer_id
      current_group_id completed_layers completed_groups checkpoints =>
    cases target_repo <;> cases current_layer_id <;> cases current_group_id <;>
    simp [PlanningSession.to_dict, PlanningSession.from_dict, getStr, getStrD, getStrListD,
      dictGet, getDateTime, getPathOpt, getOptStr,
      planningPhase_fromStr_value, projectType_fromStr_value, checkpoint_round_trip,
      mapMOption_map, getListD, strList_round, value_nil_truthy, PmPath.val_ne_empty]

/-- A written document reads back as itself when truthy. -/
theorem read_after_write (store : List (String × Value)) (p : String) (v : Value) :
    read_yaml_file (write_yaml_file store p v) p =
      some (if v.truthy then v else .dict []) := by
  induction store with
  | nil => simp [write_yaml_file, read_yaml_file]
  | cons kv rest ih =>
    cases kv with
    | mk k w =>
      by_cases hk : k = p
      · simp [write_yaml_file, read_yaml_file, hk]
      · have hb : (k == p) = false := by simpa using hk
        simp only [write_yaml_file, if_neg hk, read_yaml_file, List.find?, hb] at ih ⊢
        exact ih

theorem techStack_to_dict_truthy (x : TechStack) : (x.to_dict).truthy = true := rfl

theorem layerDefinition_to_dict_truthy (x : LayerDefinition) : (x.to_dict).truthy = true := rfl

theorem groupDefinition_to_dict_truthy (x : GroupDefinition) : (x.to_dict).truthy = true := rfl

theorem planningSession_to_dict_truthy (x : PlanningSession) : (x.to_dict).truthy = true := rfl

-- --- C9 ---

/-- C9: every TechStack, LayerDefinition, GroupDefinition and PlanningSession
value written through the YAML store and read back deserializes to the
original value — serialization is lossless for all defined fields. -/
theorem c9_round_trip (store : List (String × Value)) (p1 p2 p3 p4 : String)
    (now : DateTime) (ts : TechStack) (ld : LayerDefinition) (gd : GroupDefinition)
    (ps : PlanningSession) :
    (read_yaml_file (write_yaml_file store p1 ts.to_dict) p1).bind
      (TechStack.from_dict now) = some ts ∧
    (read_yaml_file (write_yaml_file store p2 ld.to_dict) p2).bind
      (LayerDefinition.from_dict now) = some ld ∧
    (read_yaml_file (write_yaml_file store p3 gd.to_dict) p3).bind
      GroupDefinition.from_dict = some gd ∧
    (read_yaml_file (write_yaml_file store p4 ps.to_dict) p4).bind
      PlanningSession.from_dict = some ps := by
  refine ⟨?_, ?_, ?_, ?_⟩
  · rw [read_after_write]
    simp [techStack_to_dict_truthy, techStack_round_trip]
  · rw [read_after_write]
    simp [layerDefinition_to_dict_truthy, layerDefinition_round_trip]
  · rw [read_after_write]
    simp [groupDefinition_to_dict_truthy, groupDefinition_round_trip]
  · rw [read_after_write]
    simp [planningSession_to_dict_truthy, planningSession_round_trip]

end Pm

namespace Pm

-- --- Scan characterization lemmas ---

theorem findCongr {α : Type} (p q : α → Bool) :
    ∀ l : List α, (∀ a ∈ l, p a = q a) → l.find? p = l.find? q := by
  intro l
  induction l with
  | nil => intro _; rfl
  | cons a t ih =>
    intro h
    simp only [List.find?]
    rw [h a (by simp)]
    cases q a
    · exact ih (fun x hx => h x (by simp [hx]))
    · rfl

/-- `layerActionable` depends on a layer only through its id. -/
theorem layerActionable_id (gdocs : List (String × GroupDefinition))
    (cg : List String) (L L' : Layer) (h : L.id = L'.id) :
    layerActionable gdocs cg L = layerActionable gdocs cg L' := by
  simp [layerActionable, h]

/-- Appending the id of a non-actionable layer to `completed_layers` does not
change the scan predicate. -/
theorem spec_pred_append (gdocs : List (String × GroupDefinition))
    (cl cg : List String) (L : Layer)
    (hact : layerActionable gdocs cg L = false) (a : Layer) :
    (!(cl ++ [L.id]).contains a.id && layerActionable gdocs cg a) =
      (!cl.contains a.id && layerActionable gdocs cg a) := by
  by_cases h2 : layerActionable gdocs cg a = true
  · have hid : a.id ≠ L.id := by
      intro he
      rw [layerActionable_id gdocs cg a L he] at h2
      rw [hact] at h2
      exact Bool.false_ne_true h2
    have hcc : (cl ++ [L.id]).contains a.id = cl.contains a.id := by
      by_cases h : a.id ∈ cl <;> simp [List.mem_append, h, hid]
    rw [hcc]
  · rw [Bool.not_eq_true] at h2
    rw [h2]
    simp

/-- The action computed by the layer loop of `get_next_action` is the
document-order scan described by `scanActionSpec`. -/
theorem scan_action (gdocs : List (String × GroupDefinition)) (now : DateTime) :
    ∀ (layers : List Layer) (sess : PlanningSession),
      (scanLayers gdocs now layers sess).1 =
        scanActionSpec gdocs sess.completed_layers sess.completed_groups layers := by
  intro layers
  induction layers with
  | nil =>
    intro sess
    simp [scanLayers, scanActionSpec, nextLayerTarget]
  | cons layer rest ih =>
    intro sess
    by_cases hmem : layer.id ∈ sess.completed_layers
    · simp only [scanLayers, if_pos hmem]
      rw [ih sess]
      simp [scanActionSpec, nextLayerTarget, List.find?, hmem]
    · cases hg : lookupGroupsDoc gdocs layer.id with
      | none =>
        have hact : layerActionable gdocs sess.completed_groups layer = true := by
          simp [layerActionable, hg]
        simp only [scanLayers, if_neg hmem, hg]
        simp [scanActionSpec, nextLayerTarget, List.find?, hmem, hact, actionForLayer, hg]
      | some groups =>
        cases hf : groups.groups.find? (fun g => !sess.completed_groups.contains g.id) with
        | some g =>
          have hact : layerActionable gdocs sess.completed_groups layer = true := by
            have hp := List.find?_some hf
            have hm := List.mem_of_find?_eq_some hf
            simp only [layerActionable, hg]
            exact List.any_eq_true.mpr ⟨g, hm, hp⟩
          have hf2 : groups.groups.find? (fun g => !decide (g.id ∈ sess.completed_groups))
              = some g := by
            rw [← hf]
            apply findCongr
            intro a _
            simp
          simp only [scanLayers, if_neg hmem, hg, hf]
          simp [scanActionSpec, nextLayerTarget, List.find?, hmem, hact, actionForLayer,
            hg, hf2]
        | none =>
          have hall : ∀ g ∈ groups.groups, g.id ∈ sess.completed_groups := by
            intro g hgm
            have := List.find?_eq_none.mp hf g hgm
            simpa using this
          have hact : layerActionable gdocs sess.completed_groups layer = false := by
            simp only [layerActionable, hg]
            simp only [List.any_eq_false]
            intro g hgm
            simp [hall g hgm]
          simp only [scanLayers, if_neg hmem, hg, hf]
          rw [ih]
          simp only [scanActionSpec]
          have hpred :
              nextLayerTarget gdocs (sess.completed_layers ++ [layer.id])
                sess.completed_groups rest =
              nextLayerTarget gdocs sess.completed_layers sess.completed_groups
                (layer :: rest) := by
            simp only [nextLayerTarget, List.find?]
            have hskip : (!sess.completed_layers.contains layer.id &&
                layerActionable gdocs sess.completed_groups layer) = false := by
              rw [hact]
              simp
            rw [hskip]
            exact findCongr _ _ rest
              (fun a _ => spec_pred_append gdocs sess.completed_layers
                sess.completed_groups layer hact a)
          rw [hpred]

/-- The scan only touches `completed_layers` and `updated`. -/
theorem scan_fields (gdocs : List (String × GroupDefinition)) (now : DateTime) :
    ∀ (layers : List Layer) (sess : PlanningSession),
      (scanLayers gdocs now layers sess).2.checkpoints = sess.checkpoints ∧
      (scanLayers gdocs now layers sess).2.completed_groups = sess.completed_groups ∧
      (scanLayers gdocs now layers sess).2.current_phase = sess.current_phase ∧
      (scanLayers gdocs now layers sess).2.current_layer_id = sess.current_layer_id ∧
      (scanLayers gdocs now layers sess).2.current_group_id = sess.current_group_id := by
  intro layers
  induction layers with
  | nil => intro sess; exact ⟨rfl, rfl, rfl, rfl, rfl⟩
  | cons layer rest ih =>
    intro sess
    by_cases hmem : layer.id ∈ sess.completed_layers
    · simpa only [scanLayers, if_pos hmem] using ih sess
    · cases hg : lookupGroupsDoc gdocs layer.id with
      | none =>
        simp only [scanLayers, if_neg hmem, hg]
        simp
      | some groups =>
        cases hf : groups.groups.find? (fun g => !sess.completed_groups.contains g.id) with
        | some g =>
          simp only [scanLayers, if_neg hmem, hg, hf]
          simp
        | none =>
          simp only [scanLayers, if_neg hmem, hg, hf, if_neg hmem]
          exact ih _

/-- Ids already completed stay completed through the scan. -/
theorem scan_completed_mono (gdocs : List (String × GroupDefinition)) (now : DateTime) :
    ∀ (layers : List Layer) (sess : PlanningSession) (a : String),
      a ∈ sess.completed_layers →
      a ∈ (scanLayers gdocs now layers sess).2.completed_layers := by
  intro layers
  induction layers with
  | nil => intro sess a h; exact h
  | cons layer rest ih =>
    intro sess a h
    by_cases hmem : layer.id ∈ sess.completed_layers
    · simpa only [scanLayers, if_pos hmem] using ih sess a h
    · cases hg : lookupGroupsDoc gdocs layer.id with
      | none => simpa only [scanLayers, if_neg hmem, hg] using h
      | some groups =>
        cases hf : groups.groups.find? (fun g => !sess.completed_groups.contains g.id) with
        | some g => simpa only [scanLayers, if_neg hmem, hg, hf] using h
        | none =>
          simp only [scanLayers, if_neg hmem, hg, hf, if_neg hmem]
          exact ih _ a (by simp [h])

/-- Every id the scan adds to `completed_layers` is a listed layer whose
groups document exists with every group already completed. -/
theorem scan_completed_new (gdocs : List (String × GroupDefinition)) (now : DateTime) :
    ∀ (layers : List Layer) (sess : PlanningSession) (a : String),
      a ∈ (scanLayers gdocs now layers sess).2.completed_layers →
      a ∈ sess.completed_layers ∨
        ∃ L ∈ layers, L.id = a ∧
          layerActionable gdocs sess.completed_groups L = false := by
  intro layers
  induction layers with
  | nil => intro sess a h; exact Or.inl h
  | cons layer rest ih =>
    intro sess a h
    by_cases hmem : layer.id ∈ sess.completed_layers
    · rcases ih sess a (by simpa only [scanLayers, if_pos hmem] using h) with h1 | ⟨L, hm, he, hact⟩
      · exact Or.inl h1
      · exact Or.inr ⟨L, by simp [hm], he, hact⟩
    · cases hg : lookupGroupsDoc gdocs layer.id with
      | none => exact Or.inl (by simpa only [scanLayers, if_neg hmem, hg] using h)
      | some groups =>
        cases hf : groups.groups.find? (fun g => !sess.completed_groups.contains g.id) with
        | some g => exact Or.inl (by simpa only [scanLayers, if_neg hmem, hg, hf] using h)
        | none =>
          have hact : layerActionable gdocs sess.completed_groups layer = false := by
            simp only [layerActionable, hg, List.any_eq_false]
            intro g hgm
            have := List.find?_eq_none.mp hf g hgm
            simpa using this
          simp only [scanLayers, if_neg hmem, hg, hf, if_neg hmem] at h
          rcases ih _ a h with h1 | ⟨L, hm, he, hactL⟩
          · rcases List.mem_append.mp h1 with h2 | h2
            · exact Or.inl h2
            · exact Or.inr ⟨layer, by simp, (List.mem_singleton.mp h2).symm, hact⟩
          · exact Or.inr ⟨L, by simp [hm], he, hactL⟩

/-- Re-scanning after a completed scan changes nothing: the same action comes
back and no new layer is appended. -/
theorem scan_idem (gdocs : List (String × GroupDefinition)) (now1 now2 : DateTime) :
    ∀ (layers : List Layer) (sess t : PlanningSession),
      t.completed_groups = sess.completed_groups →
      t.completed_layers = (scanLayers gdocs now1 layers sess).2.completed_layers →
      scanLayers gdocs now2 layers t = ((scanLayers gdocs now1 layers sess).1, t) := by
  intro layers
  induction layers with
  | nil =>
    intro sess t h1 h2
    simp only [scanLayers]
  | cons layer rest ih =>
    intro sess t h1 h2
    by_cases hmem : layer.id ∈ sess.completed_layers
    · simp only [scanLayers, if_pos hmem] at h2 ⊢
      have hmt : layer.id ∈ t.completed_layers := by
        rw [h2]
        exact scan_completed_mono gdocs now1 rest sess layer.id hmem
      rw [if_pos hmt]
      exact ih sess t h1 h2
    · cases hg : lookupGroupsDoc gdocs layer.id with
      | none =>
        simp only [scanLayers, if_neg hmem, hg] at h2 ⊢
        have hmt : layer.id ∉ t.completed_layers := by rw [h2]; exact hmem
        rw [if_neg hmt]
      | some groups =>
        cases hf : groups.groups.find? (fun g => !sess.completed_groups.contains g.id) with
        | some g =>
          simp only [scanLayers, if_neg hmem, hg, hf] at h2 ⊢
          have hmt : layer.id ∉ t.completed_layers := by rw [h2]; exact hmem
          rw [if_neg hmt, h1, hf]
        | none =>
          simp only [scanLayers, if_neg hmem, hg, hf, if_neg hmem] at h2 ⊢
          have hmt : layer.id ∈ t.completed_layers := by
            rw [h2]
            exact scan_completed_mono gdocs now1 rest _ layer.id (by simp)
          rw [if_pos hmt]
          exact ih _ t (by simpa using h1) h2

end Pm

namespace Pm

/-- The pending checkpoint depends only on the checkpoint list. -/
theorem pending_congr (s1 s2 : PlanningSession) (h : s1.checkpoints = s2.checkpoints) :
    s1.get_pending_checkpoint = s2.get_pending_checkpoint := by
  simp [PlanningSession.get_pending_checkpoint, h]

/-- The action returned by `get_next_action` when a session exists and no
checkpoint is pending, in terms of the declarative scan. -/
theorem get_next_action_fst (st : OrchState) (sess : PlanningSession) (now : DateTime)
    (hs : st.session = some sess) (hp : sess.get_pending_checkpoint = none) :
    (PlannerOrchestrator.get_next_action st now).1 =
      match st.layersDoc with
      | none => .architect
      | some layers =>
        match scanActionSpec st.groupsDocs sess.completed_layers sess.completed_groups
          layers.layers with
        | some a => a
        | none => .completed := by
  cases hl : st.layersDoc with
  | none => simp [PlannerOrchestrator.get_next_action, hs, hp, hl]
  | some layers =>
    cases hscan : scanLayers st.groupsDocs now layers.layers sess with
    | mk r sess2 =>
      have hr : r = scanActionSpec st.groupsDocs sess.completed_layers
          sess.completed_groups layers.layers := by
        rw [← scan_action st.groupsDocs now layers.layers sess, hscan]
      cases r with
      | some a => simp [PlannerOrchestrator.get_next_action, hs, hp, hl, hscan, ← hr]
      | none => simp [PlannerOrchestrator.get_next_action, hs, hp, hl, hscan, ← hr]

-- --- C2 ---

/-- C2 counterexample: with the layers document listing the order-2 layer
before the order-1 layer, `get_next_action` offers the first listed layer
(`layer-b`, order 2), while the ascending-numeric-order scan the claim
describes would offer `layer-a` (order 1). -/
theorem c2_counterexample :
    (PlannerOrchestrator.get_next_action sampleStateBA ⟨1⟩).1 =
      NextAction.layer_planning "layer-b" ∧
    ascendingScanSpec sampleStateBA.groupsDocs sampleFreshSession.completed_layers
      sampleFreshSession.completed_groups sampleLayersBA.layers =
      some (NextAction.layer_planning "layer-a") ∧
    NextAction.layer_planning "layer-b" ≠ NextAction.layer_planning "layer-a" := by
  refine ⟨by decide, by decide, by decide⟩

/-- C2 amended: with a session, no pending checkpoint and a (non-empty)
layers document, `get_next_action` scans the layers in document order: it
answers for the first listed layer that is not completed and still
actionable — `layer_planning` when the layer has no groups document, else
`group_planning` for its first listed not-completed group — and `completed`
when no such layer exists; every id it appends to `completed_layers` is a
listed layer whose groups are all complete, and nothing is removed. -/
theorem c2_document_order_scan (st : OrchState) (sess : PlanningSession)
    (layers : LayerDefinition) (now : DateTime)
    (hs : st.session = some sess) (hp : sess.get_pending_checkpoint = none)
    (hl : st.layersDoc = some layers) (hne : layers.layers ≠ []) :
    ((PlannerOrchestrator.get_next_action st now).1 =
      match scanActionSpec st.groupsDocs sess.completed_layers sess.completed_groups
        layers.layers with
      | some a => a
      | none => .completed) ∧
    (∃ sess2, (PlannerOrchestrator.get_next_action st now).2.session = some sess2 ∧
      (∀ a ∈ sess.completed_layers, a ∈ sess2.completed_layers) ∧
      (∀ a ∈ sess2.completed_layers, a ∈ sess.completed_layers ∨
        ∃ L ∈ layers.layers, L.id = a ∧
          layerActionable st.groupsDocs sess.completed_groups L = false)) := by
  constructor
  · rw [get_next_action_fst st sess now hs hp, hl]
  · cases hscan : scanLayers st.groupsDocs now layers.layers sess with
    | mk r sess2 =>
      have hmono : ∀ a ∈ sess.completed_layers, a ∈ sess2.completed_layers := by
        intro a ha
        have := scan_completed_mono st.groupsDocs now layers.layers sess a ha
        rwa [hscan] at this
      have hnew : ∀ a ∈ sess2.completed_layers, a ∈ sess.completed_layers ∨
          ∃ L ∈ layers.layers, L.id = a ∧
            layerActionable st.groupsDocs sess.completed_groups L = false := by
        intro a ha
        apply scan_completed_new st.groupsDocs now layers.layers sess a
        rwa [hscan]
      cases r with
      | some a =>
        refine ⟨sess2, ?_, hmono, hnew⟩
        simp [PlannerOrchestrator.get_next_action, hs, hp, hl, hscan]
      | none =>
        refine ⟨{ sess2 with current_phase := .completed, updated := now }, ?_, hmono, hnew⟩
        simp [PlannerOrchestrator.get_next_action, hs, hp, hl, hscan]

/-- Witness for the amended C2 at the out-of-order two-layer state: the
document-order scan offers `layer-b` first. -/
theorem c2_document_order_scan_witness :
    ((PlannerOrchestrator.get_next_action sampleStateBA ⟨1⟩).1 =
      match scanActionSpec sampleStateBA.groupsDocs sampleFreshSession.completed_layers
        sampleFreshSession.completed_groups sampleLayersBA.layers with
      | some a => a
      | none => .completed) ∧
    (∃ sess2, (PlannerOrchestrator.get_next_action sampleStateBA ⟨1⟩).2.session = some sess2 ∧
      (∀ a ∈ sampleFreshSession.completed_layers, a ∈ sess2.completed_layers) ∧
      (∀ a ∈ sess2.completed_layers, a ∈ sampleFreshSession.completed_layers ∨
        ∃ L ∈ sampleLayersBA.layers, L.id = a ∧
          layerActionable sampleStateBA.groupsDocs sampleFreshSession.completed_groups L
            = false)) :=
  c2_document_order_scan sampleStateBA sampleFreshSession sampleLayersBA ⟨1⟩
    rfl rfl rfl (by decide)

-- --- C8 ---

/-- C8: `get_next_action` is idempotent — a second call on the state produced
by the first returns the same action, and the lazy layer-completion side
effect adds nothing on the second call (so no duplicate entries ever enter
`completed_layers`). -/
theorem c8_get_next_action_idempotent (st : OrchState) (now1 now2 : DateTime) :
    (PlannerOrchestrator.get_next_action
        (PlannerOrchestrator.get_next_action st now1).2 now2).1 =
      (PlannerOrchestrator.get_next_action st now1).1 ∧
    OrchState.sessionCompletedLayers
      (PlannerOrchestrator.get_next_action
        (PlannerOrchestrator.get_next_action st now1).2 now2).2 =
      OrchState.sessionCompletedLayers (PlannerOrchestrator.get_next_action st now1).2 := by
  cases hs : st.session with
  | none => simp [PlannerOrchestrator.get_next_action, hs]
  | some sess =>
    cases hp : sess.get_pending_checkpoint with
    | some cp => simp [PlannerOrchestrator.get_next_action, hs, hp]
    | none =>
      cases hl : st.layersDoc with
      | none => simp [PlannerOrchestrator.get_next_action, hs, hp, hl]
      | some layers =>
        cases hscan : scanLayers st.groupsDocs now1 layers.layers sess with
        | mk r sess2 =>
          have hfields := scan_fields st.groupsDocs now1 layers.layers sess
          rw [hscan] at hfields
          have hp2 : sess2.get_pending_checkpoint = none := by
            rw [pending_congr sess2 sess hfields.1]
            exact hp
          have hidem := scan_idem st.groupsDocs now1 now2 layers.layers sess sess2
            hfields.2.1 (by rw [hscan])
          rw [hscan] at hidem
          cases r with
          | some a =>
            have hp2' : sess2.get_pending_checkpoint = none := hp2
            simp only [PlannerOrchestrator.get_next_action, hs, hp, hl, hscan]
            simp only [PlannerOrchestrator.get_next_action, hp2', hidem]
            simp [OrchState.sessionCompletedLayers]
          | none =>
            have hp3 : PlanningSession.get_pending_checkpoint
                { sess2 with current_phase := .completed, updated := now1 } = none := hp2
            have hidem2 := scan_idem st.groupsDocs now1 now2 layers.layers sess
              { sess2 with current_phase := .completed, updated := now1 }
              hfields.2.1 (by rw [hscan])
            rw [hscan] at hidem2
            simp only [PlannerOrchestrator.get_next_action, hs, hp, hl, hscan]
            simp only [PlannerOrchestrator.get_next_action, hp3, hidem2]
            simp [OrchState.sessionCompletedLayers]

end Pm

namespace Pm

-- --- C4 ---

/-- C4 counterexample: a failed layer-planning run still moves
`current_phase` to `layer_planning` and `current_layer_id` to the attempted
layer — the session pointers are not left unchanged. -/
theorem c4_counterexample :
    ((PlannerOrchestrator.run_layer_planning sampleStateBA "layer-a" sampleFailLayerOut
        ⟨7⟩).session.map PlanningSession.current_phase) = some .layer_planning ∧
    sampleStateBA.session.map PlanningSession.current_phase = some .not_started ∧
    ((PlannerOrchestrator.run_layer_planning sampleStateBA "layer-a" sampleFailLayerOut
        ⟨7⟩).session.map PlanningSession.current_layer_id) = some (some "layer-a") ∧
    sampleStateBA.session.map PlanningSession.current_layer_id = some none := by
  refine ⟨by decide, by decide, by decide, by decide⟩

/-- The returned action depends only on the pending checkpoint, the completion
lists and the documents. -/
theorem action_congr (st st' : OrchState) (sess sess' : PlanningSession) (now2 : DateTime)
    (hs : st.session = some sess) (hs' : st'.session = some sess')
    (hp : sess.get_pending_checkpoint = none)
    (hcp : sess'.checkpoints = sess.checkpoints)
    (hcl : sess'.completed_layers = sess.completed_layers)
    (hcg : sess'.completed_groups = sess.completed_groups)
    (hld : st'.layersDoc = st.layersDoc) (hgd : st'.groupsDocs = st.groupsDocs) :
    (PlannerOrchestrator.get_next_action st' now2).1 =
      (PlannerOrchestrator.get_next_action st now2).1 := by
  have hp' : sess'.get_pending_checkpoint = none := by
    rw [pending_congr _ _ hcp]
    exact hp
  rw [get_next_action_fst st' sess' now2 hs' hp', get_next_action_fst st sess now2 hs hp,
    hld, hgd, hcl, hcg]

/-- C4 amended: a phase run whose parse fails creates no checkpoint, writes
no document, and leaves `completed_layers` and `completed_groups` untouched,
so the next `get_next_action` re-offers the same action; however,
`current_phase` is set to the attempted phase and `current_layer_id` /
`current_group_id` to the attempted ids before the run, and they keep those
values after the failure. -/
theorem c4_failed_run_frame (st : OrchState) (sess : PlanningSession) (op : Op)
    (hs : st.session = some sess) (hp : sess.get_pending_checkpoint = none)
    (hf : op.isFailedRun = true) :
    (applyOp st op).layersDoc = st.layersDoc ∧
    (applyOp st op).groupsDocs = st.groupsDocs ∧
    (applyOp st op).techStackDoc = st.techStackDoc ∧
    (∃ sess2, (applyOp st op).session = some sess2 ∧
      sess2.checkpoints = sess.checkpoints ∧
      sess2.completed_layers = sess.completed_layers ∧
      sess2.completed_groups = sess.completed_groups ∧
      some sess2.current_phase = op.runPhase ∧
      sess2.current_layer_id = op.attemptedLayerPointer sess.current_layer_id ∧
      sess2.current_group_id = op.attemptedGroupPointer sess.current_group_id) ∧
    (∀ now2, (PlannerOrchestrator.get_next_action (applyOp st op) now2).1 =
      (PlannerOrchestrator.get_next_action st now2).1) := by
  cases op with
  | start sid gf tr now => simp [Op.isFailedRun] at hf
  | approve fb now => simp [Op.isFailedRun] at hf
  | reject fb now => simp [Op.isFailedRun] at hf
  | run_architect out now =>
    have hsucc : out.success = false := by simpa [Op.isFailedRun] using hf
    have hred : applyOp st (Op.run_architect out now) =
        { st with session := some { sess with current_phase := .architect, updated := now } } := by
      simp [applyOp, PlannerOrchestrator.run_architect_phase, hs, hp, hsucc]
    rw [hred]
    refine ⟨rfl, rfl, rfl, ⟨_, rfl, rfl, rfl, rfl, rfl, rfl, rfl⟩, ?_⟩
    intro now2
    exact action_congr st _ sess _ now2 hs rfl hp rfl rfl rfl rfl rfl
  | run_layer_planning lid out now =>
    have hsucc : out.success = false := by simpa [Op.isFailedRun] using hf
    have hred : applyOp st (Op.run_layer_planning lid out now) =
        { st with session := some { sess with
            current_phase := .layer_planning
            current_layer_id := some lid
            updated := now } } := by
      simp [applyOp, PlannerOrchestrator.run_layer_planning, hs, hp, hsucc]
    rw [hred]
    refine ⟨rfl, rfl, rfl, ⟨_, rfl, rfl, rfl, rfl, rfl, rfl, rfl⟩, ?_⟩
    intro now2
    exact action_congr st _ sess _ now2 hs rfl hp rfl rfl rfl rfl rfl
  | run_group_planning lid gid out now =>
    have hsucc : out.success = false := by simpa [Op.isFailedRun] using hf
    have hred : applyOp st (Op.run_group_planning lid gid out now) =
        { st with session := some { sess with
            current_phase := .group_planning
            current_group_id := some gid
            updated := now } } := by
      simp [applyOp, PlannerOrchestrator.run_group_planning, hs, hp, hsucc]
    rw [hred]
    refine ⟨rfl, rfl, rfl, ⟨_, rfl, rfl, rfl, rfl, rfl, rfl, rfl⟩, ?_⟩
    intro now2
    exact action_congr st _ sess _ now2 hs rfl hp rfl rfl rfl rfl rfl

/-- Witness for the amended C4: a failed layer-planning run on the concrete
two-layer state. -/
theorem c4_failed_run_frame_witness :
    (applyOp sampleStateBA (Op.run_layer_planning "layer-a" sampleFailLayerOut ⟨7⟩)).layersDoc
      = sampleStateBA.layersDoc ∧
    (applyOp sampleStateBA (Op.run_layer_planning "layer-a" sampleFailLayerOut ⟨7⟩)).groupsDocs
      = sampleStateBA.groupsDocs ∧
    (applyOp sampleStateBA (Op.run_layer_planning "layer-a" sampleFailLayerOut ⟨7⟩)).techStackDoc
      = sampleStateBA.techStackDoc ∧
    (∃ sess2, (applyOp sampleStateBA
        (Op.run_layer_planning "layer-a" sampleFailLayerOut ⟨7⟩)).session = some sess2 ∧
      sess2.checkpoints = sampleFreshSession.checkpoints ∧
      sess2.completed_layers = sampleFreshSession.completed_layers ∧
      sess2.completed_groups = sampleFreshSession.completed_groups ∧
      some sess2.current_phase = (Op.run_layer_planning "layer-a" sampleFailLayerOut
        ⟨7⟩ : Op).runPhase ∧
      sess2.current_layer_id = (Op.run_layer_planning "layer-a" sampleFailLayerOut
        ⟨7⟩ : Op).attemptedLayerPointer sampleFreshSession.current_layer_id ∧
      sess2.current_group_id = (Op.run_layer_planning "layer-a" sampleFailLayerOut
        ⟨7⟩ : Op).attemptedGroupPointer sampleFreshSession.current_group_id) ∧
    (∀ now2, (PlannerOrchestrator.get_next_action
        (applyOp sampleStateBA (Op.run_layer_planning "layer-a" sampleFailLayerOut ⟨7⟩))
        now2).1 =
      (PlannerOrchestrator.get_next_action sampleStateBA now2).1) :=
  c4_failed_run_frame sampleStateBA sampleFreshSession
    (Op.run_layer_planning "layer-a" sampleFailLayerOut ⟨7⟩) rfl rfl (by decide)

end Pm

namespace Pm

-- --- C10 helpers ---

theorem find_append_of_none {α : Type} (p : α → Bool) (l1 l2 : List α)
    (h : l1.find? p = none) : (l1 ++ l2).find? p = l2.find? p := by
  induction l1 with
  | nil => rfl
  | cons a t ih =>
    simp only [List.find?] at h ⊢
    cases hpa : p a with
    | true => rw [hpa] at h; simp at h
    | false =>
      rw [hpa] at h
      exact ih h

/-- Rejecting through the orchestrator keeps the session present and leaves
the completion lists and documents untouched. -/
theorem orch_reject_session (st : OrchState) (sess : PlanningSession) (fb : String)
    (now : DateTime) (hs : st.session = some sess) :
    ∃ sess4, (PlannerOrchestrator.reject_checkpoint st fb now).session = some sess4 ∧
      sess4.completed_groups = sess.completed_groups ∧
      (PlannerOrchestrator.reject_checkpoint st fb now).groupsDocs = st.groupsDocs ∧
      (PlannerOrchestrator.reject_checkpoint st fb now).layersDoc = st.layersDoc := by
  cases hp : sess.get_pending_checkpoint with
  | none => exact ⟨sess, by simp [PlannerOrchestrator.reject_checkpoint, hs, hp], rfl,
      by simp [PlannerOrchestrator.reject_checkpoint, hs, hp],
      by simp [PlannerOrchestrator.reject_checkpoint, hs, hp]⟩
  | some p =>
    cases hrj : rejectFirst fb p.id sess.checkpoints with
    | none =>
      refine ⟨sess, ?_, rfl, ?_, ?_⟩ <;>
        simp [PlannerOrchestrator.reject_checkpoint, hs, hp,
          CheckpointManager.reject_checkpoint, hrj]
    | some pr =>
      refine ⟨{ sess with checkpoints := pr.1, updated := now }, ?_, rfl, ?_, ?_⟩ <;>
        simp [PlannerOrchestrator.reject_checkpoint, hs, hp,
          CheckpointManager.reject_checkpoint, hrj]

/-- A `group_planning` action is only ever offered for a group that is not in
`completed_groups`. -/
theorem action_group_not_completed (st : OrchState) (sess : PlanningSession)
    (now : DateTime) (l g : String) (hs : st.session = some sess)
    (h : (PlannerOrchestrator.get_next_action st now).1 = .group_planning l g) :
    g ∉ sess.completed_groups := by
  cases hp : sess.get_pending_checkpoint with
  | some cp => simp [PlannerOrchestrator.get_next_action, hs, hp] at h
  | none =>
    rw [get_next_action_fst st sess now hs hp] at h
    cases hl : st.layersDoc with
    | none => rw [hl] at h; simp at h
    | some layers =>
      rw [hl] at h
      simp only at h
      cases hspec : scanActionSpec st.groupsDocs sess.completed_layers
          sess.completed_groups layers.layers with
      | none => rw [hspec] at h; simp at h
      | some a =>
        rw [hspec] at h
        simp only at h
        subst h
        obtain ⟨L, hL, hact⟩ := Option.bind_eq_some.mp hspec
        cases hg : lookupGroupsDoc st.groupsDocs L.id with
        | none => rw [actionForLayer, hg] at hact; simp at hact
        | some groups =>
          rw [actionForLayer, hg] at hact
          obtain ⟨gr, hgr, heq⟩ := Option.map_eq_some'.mp hact
          injection heq with h1 h2
          subst h2
          have hpred := List.find?_some hgr
          simpa using hpred

end Pm

namespace Pm

-- --- C10 ---

/-- C10: a successful group-planning run appends the group id to
`completed_groups` immediately, while the checkpoint it creates is still
PENDING; rejecting that checkpoint does not undo the completion, so
`get_next_action` never offers that group again. -/
theorem c10_group_completed_survives_rejection (st : OrchState) (sess : PlanningSession)
    (lid gid : String) (out : GroupOutput) (now : DateTime)
    (hs : st.session = some sess) (hp : sess.get_pending_checkpoint = none)
    (hok : out.success = true) :
    (∃ sess2 cp,
      (PlannerOrchestrator.run_group_planning st lid gid out now).session = some sess2 ∧
      gid ∈ sess2.completed_groups ∧
      sess2.checkpoints = sess.checkpoints ++ [cp] ∧
      cp.status = .pending ∧ cp.phase = .group_planning) ∧
    (∀ fb now2,
      (∃ sess3,
        (PlannerOrchestrator.reject_checkpoint
          (PlannerOrchestrator.run_group_planning st lid gid out now) fb now2).session =
            some sess3 ∧
        gid ∈ sess3.completed_groups) ∧
      (∀ now3 l g,
        (PlannerOrchestrator.get_next_action
          (PlannerOrchestrator.reject_checkpoint
            (PlannerOrchestrator.run_group_planning st lid gid out now) fb now2) now3).1 =
          .group_planning l g → g ≠ gid)) := by
  by_cases hgm : gid ∈ sess.completed_groups
  · have hred : PlannerOrchestrator.run_group_planning st lid gid out now =
        { st with session := some { sess with
            current_phase := .group_planning
            current_group_id := some gid
            updated := now
            checkpoints := sess.checkpoints ++
              [{ id := "cp-" ++ pad3 (sess.checkpoints.length + 1)
                 phase := .group_planning
                 description := "Group " ++ gid ++ " tasks: " ++
                   toString out.task_ids.length ++ " tasks created"
                 status := .pending
                 created := now
                 approved_at := none
                 feedback := ""
                 artifacts := [] }] } } := by
      simp [PlannerOrchestrator.run_group_planning, hs, hp, hok,
        PlanningSession.add_checkpoint, hgm]
    have hsess := congrArg OrchState.session hred
    constructor
    · exact ⟨_, _, hsess, hgm, rfl, rfl, rfl⟩
    · intro fb now2
      obtain ⟨sess4, h4, hg4, _, _⟩ := orch_reject_session
        (PlannerOrchestrator.run_group_planning st lid gid out now) _ fb now2
        (by rw [hred])
      have hmem4 : gid ∈ sess4.completed_groups := by rw [hg4]; exact hgm
      refine ⟨⟨sess4, h4, hmem4⟩, ?_⟩
      intro now3 l g hact hgg
      subst hgg
      exact action_group_not_completed _ sess4 now3 l g h4 hact hmem4
  · have hred : PlannerOrchestrator.run_group_planning st lid gid out now =
        { st with session := some { sess with
            current_phase := .group_planning
            current_group_id := some gid
            updated := now
            completed_groups := sess.completed_groups ++ [gid]
            checkpoints := sess.checkpoints ++
              [{ id := "cp-" ++ pad3 (sess.checkpoints.length + 1)
                 phase := .group_planning
                 description := "Group " ++ gid ++ " tasks: " ++
                   toString out.task_ids.length ++ " tasks created"
                 status := .pending
                 created := now
                 approved_at := none
                 feedback := ""
                 artifacts := [] }] } } := by
      simp [PlannerOrchestrator.run_group_planning, hs, hp, hok,
        PlanningSession.add_checkpoint, hgm]
    have hmem : gid ∈ sess.completed_groups ++ [gid] := by simp
    have hsess := congrArg OrchState.session hred
    constructor
    · exact ⟨_, _, hsess, hmem, rfl, rfl, rfl⟩
    · intro fb now2
      obtain ⟨sess4, h4, hg4, _, _⟩ := orch_reject_session
        (PlannerOrchestrator.run_group_planning st lid gid out now) _ fb now2
        (by rw [hred])
      have hmem4 : gid ∈ sess4.completed_groups := by rw [hg4]; exact hmem
      refine ⟨⟨sess4, h4, hmem4⟩, ?_⟩
      intro now3 l g hact hgg
      subst hgg
      exact action_group_not_completed _ sess4 now3 l g h4 hact hmem4

/-- Witness for C10 at the concrete one-layer one-group state. -/
theorem c10_group_completed_survives_rejection_witness :
    (∃ sess2 cp,
      (PlannerOrchestrator.run_group_planning sampleStateGroups "layer-a" "grp-a-01"
        sampleOkGroupOut ⟨2⟩).session = some sess2 ∧
      "grp-a-01" ∈ sess2.completed_groups ∧
      sess2.checkpoints = sampleFreshSession.checkpoints ++ [cp] ∧
      cp.status = .pending ∧ cp.phase = .group_planning) ∧
    (∀ fb now2,
      (∃ sess3,
        (PlannerOrchestrator.reject_checkpoint
          (PlannerOrchestrator.run_group_planning sampleStateGroups "layer-a" "grp-a-01"
            sampleOkGroupOut ⟨2⟩) fb now2).session = some sess3 ∧
        "grp-a-01" ∈ sess3.completed_groups) ∧
      (∀ now3 l g,
        (PlannerOrchestrator.get_next_action
          (PlannerOrchestrator.reject_checkpoint
            (PlannerOrchestrator.run_group_planning sampleStateGroups "layer-a" "grp-a-01"
              sampleOkGroupOut ⟨2⟩) fb now2) now3).1 =
          .group_planning l g → g ≠ "grp-a-01")) :=
  c10_group_completed_survives_rejection sampleStateGroups sampleFreshSession
    "layer-a" "grp-a-01" sampleOkGroupOut ⟨2⟩ rfl rfl rfl

end Pm

namespace Pm

-- --- C1 helpers ---

theorem pendingCountList_append (l1 l2 : List Checkpoint) :
    pendingCountList (l1 ++ l2) = pendingCountList l1 + pendingCountList l2 := by
  simp [pendingCountList, List.countP_append]

/-- No pending checkpoint means the pending count is zero. -/
theorem pending_none_zero (sess : PlanningSession)
    (hp : sess.get_pending_checkpoint = none) :
    pendingCountList sess.checkpoints = 0 := by
  simp only [PlanningSession.get_pending_checkpoint] at hp
  rw [pendingCountList, List.countP_eq_zero]
  intro c hc
  exact List.find?_eq_none.mp hp c hc

/-- Approving a checkpoint never increases the number of pending ones. -/
theorem approveFirst_pending_le (now : DateTime) (fb cpId : String) :
    ∀ (cps cps' : List Checkpoint) (c : Checkpoint),
      approveFirst now fb cpId cps = some (cps', c) →
      pendingCountList cps' ≤ pendingCountList cps := by
  intro cps
  induction cps with
  | nil => intro cps' c h; simp [approveFirst] at h
  | cons c0 rest ih =>
    intro cps' c h
    by_cases hc : c0.id = cpId
    · simp only [approveFirst, if_pos hc, Option.some.injEq, Prod.mk.injEq] at h
      rw [← h.1]
      simp [pendingCountList, List.countP_cons]
    · simp only [approveFirst, if_neg hc] at h
      cases hrec : approveFirst now fb cpId rest with
      | none => rw [hrec] at h; simp at h
      | some pr =>
        rw [hrec] at h
        simp at h
        rw [← h.1]
        simp only [pendingCountList, List.countP_cons]
        have := ih pr.1 pr.2 (by rw [hrec])
        simp only [pendingCountList] at this
        omega

/-- Rejecting a checkpoint never increases the number of pending ones. -/
theorem rejectFirst_pending_le (fb cpId : String) :
    ∀ (cps cps' : List Checkpoint) (c : Checkpoint),
      rejectFirst fb cpId cps = some (cps', c) →
      pendingCountList cps' ≤ pendingCountList cps := by
  intro cps
  induction cps with
  | nil => intro cps' c h; simp [rejectFirst] at h
  | cons c0 rest ih =>
    intro cps' c h
    by_cases hc : c0.id = cpId
    · simp only [rejectFirst, if_pos hc, Option.some.injEq, Prod.mk.injEq] at h
      rw [← h.1]
      simp [pendingCountList, List.countP_cons]
    · simp only [rejectFirst, if_neg hc] at h
      cases hrec : rejectFirst fb cpId rest with
      | none => rw [hrec] at h; simp at h
      | some pr =>
        rw [hrec] at h
        simp at h
        rw [← h.1]
        simp only [pendingCountList, List.countP_cons]
        have := ih pr.1 pr.2 (by rw [hrec])
        simp only [pendingCountList] at this
        omega

/-- `_check_layer_completion` does not touch the checkpoint list. -/
theorem check_layer_completion_checkpoints (st : OrchState) (sess : PlanningSession)
    (now : DateTime) (hs : st.session = some sess) :
    ∃ sess', (PlannerOrchestrator.check_layer_completion st now).session = some sess' ∧
      sess'.checkpoints = sess.checkpoints := by
  cases hl : sess.current_layer_id with
  | none =>
    refine ⟨sess, ?_, rfl⟩
    simp [PlannerOrchestrator.check_layer_completion, hs, hl]
  | some lid =>
    cases hg : st.load_groups lid with
    | none =>
      refine ⟨sess, ?_, rfl⟩
      simp [PlannerOrchestrator.check_layer_completion, hs, hl, hg]
    | some groups =>
      by_cases hcond : (∀ g ∈ groups.groups, g.id ∈ sess.completed_groups) ∧
          lid ∉ sess.completed_layers
      · obtain ⟨h1, h2⟩ := hcond
        refine ⟨{ sess with
          completed_layers := sess.completed_layers ++ [lid]
          current_layer_id := none
          updated := now }, ?_, rfl⟩
        simp [PlannerOrchestrator.check_layer_completion, hs, hl, hg, h1, h2]
        rw [if_pos h1]
      · refine ⟨sess, ?_, rfl⟩
        simp [PlannerOrchestrator.check_layer_completion, hs, hl, hg, hcond]

/-- Every operation preserves the at-most-one-pending invariant. -/
theorem applyOp_pending (st : OrchState) (op : Op)
    (h : ∀ s, st.session = some s → pendingCount s ≤ 1) :
    ∀ s, (applyOp st op).session = some s → pendingCount s ≤ 1 := by
  cases op with
  | start sid gf tr now =>
    intro s hsv
    simp only [applyOp, PlannerOrchestrator.start_planning, Option.some.injEq] at hsv
    rw [← hsv]
    simp [pendingCount, pendingCountList]
  | run_architect out now =>
    cases hs : st.session with
    | none => intro s hsv; rw [show applyOp st (Op.run_architect out now) = st by
        simp [applyOp, PlannerOrchestrator.run_architect_phase, hs]] at hsv; exact h s hsv
    | some sess =>
      cases hpend : sess.get_pending_checkpoint with
      | some p =>
        intro s hsv
        rw [show applyOp st (Op.run_architect out now) = st by
          simp [applyOp, PlannerOrchestrator.run_architect_phase, hs, hpend]] at hsv
        exact h s hsv
      | none =>
        have hz := pending_none_zero sess hpend
        cases hsucc : out.success with
        | false =>
          intro s hsv
          rw [show (applyOp st (Op.run_architect out now)).session =
              some { sess with current_phase := .architect, updated := now } by
            simp [applyOp, PlannerOrchestrator.run_architect_phase, hs, hpend, hsucc]] at hsv
          cases hsv
          simp [pendingCount, hz]
        | true =>
          intro s hsv
          rw [show (applyOp st (Op.run_architect out now)).session =
              some { sess with
                current_phase := .architect
                updated := now
                checkpoints := sess.checkpoints ++
                  [{ id := "cp-" ++ pad3 (sess.checkpoints.length + 1)
                     phase := .architect
                     description := "Architecture defined: " ++
                       toString (match out.layers with
                         | some l => l.layers.length | none => 0) ++ " layers"
                     status := .pending
                     created := now
                     approved_at := none
                     feedback := ""
                     artifacts := architectArtifacts out }] } by
            simp [applyOp, PlannerOrchestrator.run_architect_phase, hs, hpend, hsucc,
              PlanningSession.add_checkpoint]] at hsv
          cases hsv
          simp only [pendingCount, pendingCountList, List.countP_append, List.countP_cons,
            List.countP_nil]
          simp only [pendingCountList] at hz
          simp [hz]
  | run_layer_planning lid out now =>
    cases hs : st.session with
    | none => intro s hsv; rw [show applyOp st (Op.run_layer_planning lid out now) = st by
        simp [applyOp, PlannerOrchestrator.run_layer_planning, hs]] at hsv; exact h s hsv
    | some sess =>
      cases hpend : sess.get_pending_checkpoint with
      | some p =>
        intro s hsv
        rw [show applyOp st (Op.run_layer_planning lid out now) = st by
          simp [applyOp, PlannerOrchestrator.run_layer_planning, hs, hpend]] at hsv
        exact h s hsv
      | none =>
        have hz := pending_none_zero sess hpend
        cases hsucc : out.success with
        | false =>
          intro s hsv
          rw [show (applyOp st (Op.run_layer_planning lid out now)).session =
              some { sess with
                current_phase := .layer_planning
                current_layer_id := some lid
                updated := now } by
            simp [applyOp, PlannerOrchestrator.run_layer_planning, hs, hpend, hsucc]] at hsv
          cases hsv
          simp [pendingCount, hz]
        | true =>
          intro s hsv
          rw [show (applyOp st (Op.run_layer_planning lid out now)).session =
              some { sess with
                current_phase := .layer_planning
                current_layer_id := some lid
                updated := now
                checkpoints := sess.checkpoints ++
                  [{ id := "cp-" ++ pad3 (sess.checkpoints.length + 1)
                     phase := .layer_planning
                     description := "Layer " ++ lid ++ " breakdown: " ++
                       toString (match out.groups with
                         | some g => g.groups.length | none => 0) ++ " groups"
                     status := .pending
                     created := now
                     approved_at := none
                     feedback := ""
                     artifacts := layerArtifacts out }] } by
            simp [applyOp, PlannerOrchestrator.run_layer_planning, hs, hpend, hsucc,
              PlanningSession.add_checkpoint]] at hsv
          cases hsv
          simp only [pendingCount, pendingCountList, List.countP_append, List.countP_cons,
            List.countP_nil]
          simp only [pendingCountList] at hz
          simp [hz]
  | run_group_planning lid gid out now =>
    cases hs : st.session with
    | none => intro s hsv; rw [show applyOp st (Op.run_group_planning lid gid out now) = st by
        simp [applyOp, PlannerOrchestrator.run_group_planning, hs]] at hsv; exact h s hsv
    | some sess =>
      cases hpend : sess.get_pending_checkpoint with
      | some p =>
        intro s hsv
        rw [show applyOp st (Op.run_group_planning lid gid out now) = st by
          simp [applyOp, PlannerOrchestrator.run_group_planning, hs, hpend]] at hsv
        exact h s hsv
      | none =>
        have hz := pending_none_zero sess hpend
        cases hsucc : out.success with
        | false =>
          intro s hsv
          rw [show (applyOp st (Op.run_group_planning lid gid out now)).session =
              some { sess with
                current_phase := .group_planning
                current_group_id := some gid
                updated := now } by
            simp [applyOp, PlannerOrchestrator.run_group_planning, hs, hpend, hsucc]] at hsv
          cases hsv
          simp [pendingCount, hz]
        | true =>
          by_cases hgm : gid ∈ ({ sess with
              current_phase := PlanningPhase.group_planning
              current_group_id := some gid
              updated := now }.add_checkpoint .group_planning
                ("Group " ++ gid ++ " tasks: " ++ toString out.task_ids.length ++
                  " tasks created") [] now).1.completed_groups
          · intro s hsv
            rw [show (applyOp st (Op.run_group_planning lid gid out now)).session =
                some ({ sess with
                  current_phase := PlanningPhase.group_planning
                  current_group_id := some gid
                  updated := now }.add_checkpoint .group_planning
                    ("Group " ++ gid ++ " tasks: " ++ toString out.task_ids.length ++
                      " tasks created") [] now).1 by
              simp only [applyOp, PlannerOrchestrator.run_group_planning, hs, hpend]
              simp [hsucc, hgm]] at hsv
            cases hsv
            simp only [pendingCount, PlanningSession.add_checkpoint, pendingCountList,
              List.countP_append, List.countP_cons, List.countP_nil]
            simp only [pendingCountList] at hz
            simp [hz]
          · intro s hsv
            rw [show (applyOp st (Op.run_group_planning lid gid out now)).session =
                some { ({ sess with
                  current_phase := PlanningPhase.group_planning
                  current_group_id := some gid
                  updated := now }.add_checkpoint .group_planning
                    ("Group " ++ gid ++ " tasks: " ++ toString out.task_ids.length ++
                      " tasks created") [] now).1 with
                  completed_groups := (({ sess with
                    current_phase := PlanningPhase.group_planning
                    current_group_id := some gid
                    updated := now }.add_checkpoint .group_planning
                      ("Group " ++ gid ++ " tasks: " ++ toString out.task_ids.length ++
                        " tasks created") [] now).1.completed_groups ++ [gid])
                  updated := now } by
              simp only [applyOp, PlannerOrchestrator.run_group_planning, hs, hpend]
              simp [hsucc, hgm]] at hsv
            cases hsv
            simp only [pendingCount, PlanningSession.add_checkpoint, pendingCountList,
              List.countP_append, List.countP_cons, List.countP_nil]
            simp only [pendingCountList] at hz
            simp [hz]
  | approve fb now =>
    cases hs : st.session with
    | none => intro s hsv; rw [show applyOp st (Op.approve fb now) = st by
        simp [applyOp, PlannerOrchestrator.approve_checkpoint, hs]] at hsv; exact h s hsv
    | some sess =>
      cases hpend : sess.get_pending_checkpoint with
      | none =>
        intro s hsv
        rw [show applyOp st (Op.approve fb now) = st by
          simp [applyOp, PlannerOrchestrator.approve_checkpoint, hs, hpend]] at hsv
        exact h s hsv
      | some p =>
        cases happ : approveFirst now fb p.id sess.checkpoints with
        | none =>
          intro s hsv
          rw [show (applyOp st (Op.approve fb now)).session = some sess by
            simp [applyOp, PlannerOrchestrator.approve_checkpoint, hs, hpend,
              CheckpointManager.approve_checkpoint, happ]] at hsv
          cases hsv
          exact h sess hs
        | some pr =>
          have hle : pendingCountList pr.1 ≤ pendingCountList sess.checkpoints :=
            approveFirst_pending_le now fb p.id sess.checkpoints pr.1 pr.2 (by rw [happ])
          have hred : applyOp st (Op.approve fb now) =
              PlannerOrchestrator.check_layer_completion
                { st with session := some { sess with checkpoints := pr.1, updated := now } }
                now := by
            simp [applyOp, PlannerOrchestrator.approve_checkpoint, hs, hpend,
              CheckpointManager.approve_checkpoint, happ]
          intro s hsv
          rw [hred] at hsv
          obtain ⟨sess', hse, hcp⟩ := check_layer_completion_checkpoints
            { st with session := some { sess with checkpoints := pr.1, updated := now } }
            { sess with checkpoints := pr.1, updated := now } now rfl
          rw [hse] at hsv
          cases hsv
          have h1 : pendingCount s = pendingCountList pr.1 := by
            rw [pendingCount, hcp]
          rw [h1]
          exact le_trans hle (h sess hs)
  | reject fb now =>
    cases hs : st.session with
    | none => intro s hsv; rw [show applyOp st (Op.reject fb now) = st by
        simp [applyOp, PlannerOrchestrator.reject_checkpoint, hs]] at hsv; exact h s hsv
    | some sess =>
      cases hpend : sess.get_pending_checkpoint with
      | none =>
        intro s hsv
        rw [show applyOp st (Op.reject fb now) = st by
          simp [applyOp, PlannerOrchestrator.reject_checkpoint, hs, hpend]] at hsv
        exact h s hsv
      | some p =>
        cases hrej : rejectFirst fb p.id sess.checkpoints with
        | none =>
          intro s hsv
          rw [show (applyOp st (Op.reject fb now)).session = some sess by
            simp [applyOp, PlannerOrchestrator.reject_checkpoint, hs, hpend,
              CheckpointManager.reject_checkpoint, hrej]] at hsv
          cases hsv
          exact h sess hs
        | some pr =>
          have hle : pendingCountList pr.1 ≤ pendingCountList sess.checkpoints :=
            rejectFirst_pending_le fb p.id sess.checkpoints pr.1 pr.2 (by rw [hrej])
          intro s hsv
          rw [show (applyOp st (Op.reject fb now)).session =
              some { sess with checkpoints := pr.1, updated := now } by
            simp [applyOp, PlannerOrchestrator.reject_checkpoint, hs, hpend,
              CheckpointManager.reject_checkpoint, hrej]] at hsv
          cases hsv
          have h1 : pendingCount { sess with checkpoints := pr.1, updated := now } =
              pendingCountList pr.1 := rfl
          rw [h1]
          exact le_trans hle (h sess hs)

-- --- C1 ---

/-- C1: after any sequence of orchestrator operations from the initial state,
the session (when one exists) has at most one PENDING checkpoint. -/
theorem c1_at_most_one_pending (ops : List Op) (sess : PlanningSession)
    (h : (applyOps initialState ops).session = some sess) :
    pendingCount sess ≤ 1 := by
  have key : ∀ (ops : List Op) (st : OrchState),
      (∀ s, st.session = some s → pendingCount s ≤ 1) →
      (∀ s, (applyOps st ops).session = some s → pendingCount s ≤ 1) := by
    intro ops
    induction ops with
    | nil => intro st h0; exact h0
    | cons op rest ih =>
      intro st h0
      exact ih (applyOp st op) (applyOp_pending st op h0)
  exact key ops initialState (fun s hcontra => by simp [initialState] at hcontra) sess h

/-- Witness for C1: one `start` operation yields the fresh session, which has
zero pending checkpoints. -/
theorem c1_at_most_one_pending_witness : pendingCount sampleFreshSession ≤ 1 :=
  c1_at_most_one_pending [Op.start "plan-1" true none ⟨0⟩] sampleFreshSession (by rfl)

end Pm
